import Mathlib

/-!
# LLM4Time — verification of the time-series textual codec and prompt pipeline

This file embeds the core of the LLM4Time repository (the time-series
textual codec, the window samplers, the preprocessing standardisation step,
the decomposition statistics wrapper and the prompt assembler) as executable
Lean definitions, and proves or refutes the specified properties.

Conventions of the embedding:
* Python floats that appear as data values are modelled as decimal literals
  (`Dec`, a mantissa/exponent pair): this captures both their exact numeric
  value and their textual rendering (`str`), which the codec depends on
  (e.g. Python prints the int `10` as `"10"` and the float `10.0` as `"10.0"`).
* Python's dynamically typed values (floats, `None`, `nan`, strings) are
  modelled by the sum type `PyVal`; missing values use the distinguished
  constructors `PyVal.none` / `PyVal.nan`.
* Fallible Python code (exceptions) is modelled with `Except String`,
  the error string mirroring the exception message of the source.
* External library collaborators (pandas cell-type inference, the
  statsmodels STL fit, numpy's random draw) are modelled at the fidelity
  the verified properties need, or passed as explicit parameters where the
  specification itself declares them external collaborators (spec §4.5, §9).
-/

/- The rational arithmetic of the embedding must evaluate on concrete
inputs inside proofs (`rfl`/`decide`); Batteries marks these operations
`@[irreducible]` for elaboration only, which this development reverts. -/
attribute [local semireducible] Rat.add Rat.mul Rat.sub Rat.inv

namespace LLM4Time

/-! ## Decimal values (model of Python numeric literals) -/

/-- A decimal literal `m / 10^e`.  `e = 0` models a Python `int`
(printed without a decimal point), `e > 0` a Python `float` printed with
`e` digits after the decimal point (e.g. `⟨10123, 3⟩` is `10.123`,
`⟨100, 1⟩` is the float `10.0`). -/
structure Dec where
  m : Int
  e : Nat
deriving DecidableEq, Repr

/-- The exact rational value of a decimal literal. -/
def Dec.toRat (d : Dec) : ℚ := mkRat d.m (10 ^ d.e)

/-- Numeric strict order on decimal literals (Python `<` between numbers). -/
def Dec.lt (a b : Dec) : Prop := a.m * 10 ^ b.e < b.m * 10 ^ a.e

instance : DecidableRel Dec.lt := fun a b => by
  unfold Dec.lt; infer_instance

/-- Digit-accumulation loop for `natDigits`, structurally recursive on a
fuel argument so that concrete renderings evaluate by `rfl`. -/
def natDigitsAux : Nat → Nat → List Char → List Char
  | 0, _, acc => acc
  | fuel + 1, n, acc =>
      if n < 10 then Char.ofNat (48 + n % 10) :: acc
      else natDigitsAux fuel (n / 10) (Char.ofNat (48 + n % 10) :: acc)

/-- The decimal digits of a natural number, most significant first
(model of Python's rendering of a nonnegative integer). -/
def natDigits (n : Nat) (acc : List Char) : List Char :=
  natDigitsAux (n + 1) n acc

/-- Model of Python `str` on an integer. -/
def intStr (i : Int) : String :=
  String.mk ((if i < 0 then ['-'] else []) ++ natDigits i.natAbs [])

/-- Model of Python `str` on a `Dec` literal: an `int` (`e = 0`) prints its
digits, a `float` (`e > 0`) prints with a decimal point `e` digits from the
right, zero padded (`⟨5, 1⟩` prints `"0.5"`). -/
def decStr (d : Dec) : String :=
  if d.e = 0 then intStr d.m
  else
    let ds := natDigits d.m.natAbs []
    let ds := List.replicate (d.e + 1 - ds.length) '0' ++ ds
    String.mk ((if d.m < 0 then ['-'] else []) ++
      (ds.take (ds.length - d.e) ++ '.' :: ds.drop (ds.length - d.e)))

/-! ## Python values -/

/-- A Python value as it flows through the codec: `none` is Python `None`,
`nan` is the float not-a-number, `num` a numeric literal, `str` a string. -/
inductive PyVal where
  | none : PyVal
  | nan : PyVal
  | num : Dec → PyVal
  | str : String → PyVal
deriving DecidableEq, Repr

/-- Model of Python `str.lower()`. -/
def pyLower (s : String) : String := String.mk (s.data.map Char.toLower)

/-- Model of Python `str(value)`. -/
def pyStr : PyVal → String
  | .none => "None"
  | .nan => "nan"
  | .num d => decStr d
  | .str s => s

/-- Model of Python `sep.join(parts)`. -/
def pyJoin (sep : String) : List String → String
  | [] => ""
  | [x] => x
  | x :: xs => x ++ sep ++ pyJoin sep xs

/-- The characters of a string, each as a 1-character string
(model of Python iterating over a `str`, as in `' '.join(str(v))`). -/
def strChars (s : String) : List String := s.data.map Char.toString

/-- `pd.isna` on a `PyVal`: true for `None` and for the float nan. -/
def pyIsNa : PyVal → Bool
  | .none => true
  | .nan => true
  | _ => false

/-! ## Missing-value normalizers
(src/llm4time/core/formatting/normalizers/normalize_missing.py and
 .../denormalizers/denormalize_missing.py) -/

/-- `normalize_missing`: `None` and the float nan become the sentinel
string `'nan'`; every other value is returned unchanged. -/
def normalize_missing (value : PyVal) : PyVal :=
  match value with
  | .none => .str "nan"
  | .nan => .str "nan"
  | v => v

/-- `denormalize_missing`: if `str(value).lower() == 'nan'` the result is
the float nan, otherwise the value unchanged. -/
def denormalize_missing (value : PyVal) : PyVal :=
  if pyLower (pyStr value) = "nan" then .nan else value

/-! ## The duck-typed codec payload

The encoders, decoders and the `ARRAY` formatter accept either a list of
bare values or a list of `(date, value)` tuples, distinguished in the
source by an `isinstance` check on the first element; the embedding
carries the distinction in the type. -/

/-- A codec payload: a list of `(date, value)` pairs or of bare values. -/
inductive PyData where
  | pairs : List (String × PyVal) → PyData
  | values : List PyVal → PyData
deriving DecidableEq, Repr

/-! ## Value encoders
(src/llm4time/core/formatting/encoders/encode_numeric.py, encode_textual.py) -/

/-- `encode_numeric`: normalise missing values, leaving everything else
unchanged (identity composed with the missing normalizer). -/
def encode_numeric : PyData → PyData
  | .pairs xs => .pairs (xs.map fun p => (p.1, normalize_missing p.2))
  | .values xs => .values (xs.map normalize_missing)

/-- The textual encoding of one value: `' '.join(str(normalize_missing(v)))`,
i.e. the decimal string with a single space between every character. -/
def textualVal (v : PyVal) : PyVal :=
  .str (pyJoin " " (strChars (pyStr (normalize_missing v))))

/-- `encode_textual`: every value becomes its character-spaced decimal
string, after sentinel substitution. -/
def encode_textual : PyData → PyData
  | .pairs xs => .pairs (xs.map fun p => (p.1, textualVal p.2))
  | .values xs => .values (xs.map textualVal)

/-! ## Python comparison between dynamically typed values -/

/-- Lexicographic (code-point) comparison of character lists — Python's
string `<`. -/
def charListLt : List Char → List Char → Bool
  | [], [] => false
  | [], _ :: _ => true
  | _ :: _, [] => false
  | a :: as, b :: bs =>
      if a.toNat < b.toNat then true
      else if b.toNat < a.toNat then false
      else charListLt as bs

/-- Python `a < b` on strings. -/
def strLtB (a b : String) : Bool := charListLt a.data b.data

/-- Python `a > b` on codec values: numeric between numbers (`nan`
compares false against everything), lexicographic between strings,
`TypeError` otherwise. -/
def pyGt : PyVal → PyVal → Except String Bool
  | .num a, .num b => .ok (decide (Dec.lt b a))
  | .nan, .num _ => .ok false
  | .num _, .nan => .ok false
  | .nan, .nan => .ok false
  | .str a, .str b => .ok (strLtB b a)
  | _, _ => .error "TypeError: unsupported comparison"

/-- Python `a < b` on codec values (same domain as `pyGt`). -/
def pyLt : PyVal → PyVal → Except String Bool
  | .num a, .num b => .ok (decide (Dec.lt a b))
  | .nan, .num _ => .ok false
  | .num _, .nan => .ok false
  | .nan, .nan => .ok false
  | .str a, .str b => .ok (strLtB a b)
  | _, _ => .error "TypeError: unsupported comparison"

/-! ## Format serializers (src/llm4time/core/formatting/to_*.py)

Each serializer unpacks `(d, v)` tuples; handing it a list of bare values
raises a `TypeError` in Python, modelled as an error result.  `to_array`
accepts both payload shapes. -/

/-- `to_csv`: header `Date,Value`, one `d,v` row per point. -/
def to_csv : PyData → Except String String
  | .pairs xs =>
      .ok ("Date,Value\n" ++ pyJoin "\n" (xs.map fun p => p.1 ++ "," ++ pyStr p.2))
  | .values _ => .error "TypeError: cannot unpack non-iterable value"

/-- `to_tsv`: header `Date\tValue`, tab-separated rows. -/
def to_tsv : PyData → Except String String
  | .pairs xs =>
      .ok ("Date\tValue\n" ++ pyJoin "\n" (xs.map fun p => p.1 ++ "\t" ++ pyStr p.2))
  | .values _ => .error "TypeError: cannot unpack non-iterable value"

/-- `to_custom`: header `Date|Value`, pipe-separated rows. -/
def to_custom : PyData → Except String String
  | .pairs xs =>
      .ok ("Date|Value\n" ++ pyJoin "\n" (xs.map fun p => p.1 ++ "|" ++ pyStr p.2))
  | .values _ => .error "TypeError: cannot unpack non-iterable value"

/-- `to_context`: header `Date,Value`, rows `d,[v]`. -/
def to_context : PyData → Except String String
  | .pairs xs =>
      .ok ("Date,Value\n" ++ pyJoin "\n" (xs.map fun p => p.1 ++ ",[" ++ pyStr p.2 ++ "]"))
  | .values _ => .error "TypeError: cannot unpack non-iterable value"

/-- `to_plain`: lines `Date: d, Value: v`, no header. -/
def to_plain : PyData → Except String String
  | .pairs xs =>
      .ok (pyJoin "\n" (xs.map fun p => "Date: " ++ p.1 ++ ", Value: " ++ pyStr p.2))
  | .values _ => .error "TypeError: cannot unpack non-iterable value"

/-- `to_markdown`: markdown table with header and separator row. -/
def to_markdown : PyData → Except String String
  | .pairs xs =>
      .ok ("|Date|Value|\n|---|---|\n" ++
        pyJoin "\n" (xs.map fun p => "|" ++ p.1 ++ "|" ++ pyStr p.2 ++ "|"))
  | .values _ => .error "TypeError: cannot unpack non-iterable value"

/-- The JSON rendering of one codec value (`json.dumps` on a scalar). -/
def jsonVal : PyVal → String
  | .none => "null"
  | .nan => "NaN"
  | .num d => decStr d
  | .str s => "\"" ++ s ++ "\""

/-- `to_json`: a JSON array of `{"Date": d, "Value": v}` objects, with
`json.dumps`'s default `', '` / `': '` separators. -/
def to_json : PyData → Except String String
  | .pairs xs =>
      .ok ("[" ++ pyJoin ", "
        (xs.map fun p =>
          "\x7b\"Date\": \"" ++ p.1 ++ "\", \"Value\": " ++ jsonVal p.2 ++ "\x7d") ++ "]")
  | .values _ => .error "TypeError: cannot unpack non-iterable value"

/-- The direction glyph of `to_symbol`: the first point gets `→`;
a later point compares with the immediately preceding value
(`>` then `<`, in the source's conditional order). -/
def pyDirection : Option PyVal → PyVal → Except String String
  | Option.none, _ => .ok "→"
  | Option.some p, v =>
      match pyGt v p with
      | .error e => .error e
      | .ok gt =>
        if gt then .ok "↑"
        else
          match pyLt v p with
          | .error e => .error e
          | .ok lt => .ok (if lt then "↓" else "→")

/-- The rows of `to_symbol`, carrying the previous value for the
direction comparison (model of indexing `data[i-1]`). -/
def symbolRows : Option PyVal → List (String × PyVal) → Except String (List String)
  | _, [] => .ok []
  | prev, (d, v) :: rest => do
      let dir ← pyDirection prev v
      let rs ← symbolRows (.some v) rest
      .ok ((d ++ "," ++ pyStr v ++ "," ++ dir) :: rs)

/-- `to_symbol`: CSV rows `d,v,direction` under the header
`Date,Value,DirectionIndicator`. -/
def to_symbol : PyData → Except String String
  | .pairs xs => do
      let rows ← symbolRows .none xs
      .ok ("Date,Value,DirectionIndicator\n" ++ pyJoin "\n" rows)
  | .values _ => .error "TypeError: cannot unpack non-iterable value"

/-- `to_array`: bracketed list of the values only; a list of pairs is
first stripped to its values. -/
def to_array : PyData → Except String String
  | .pairs xs => .ok ("[" ++ pyJoin ", " (xs.map fun p => pyStr p.2) ++ "]")
  | .values xs => .ok ("[" ++ pyJoin ", " (xs.map pyStr) ++ "]")

/-! ## Enumerations and dispatch tables
(src/llm4time/core/formatting/parsers/__init__.py, encoders/decoders/__init__.py) -/

/-- The closed set of nine serialization formats. -/
inductive TSFormat where
  | ARRAY | TSV | PLAIN | JSON | MARKDOWN | CONTEXT | SYMBOL | CSV | CUSTOM
deriving DecidableEq, Repr

/-- The closed set of two value encodings. -/
inductive TSType where
  | NUMERIC | TEXTUAL
deriving DecidableEq, Repr

/-- The `FORMATTERS` dispatch table. -/
def FORMATTERS : TSFormat → PyData → Except String String
  | .ARRAY => to_array
  | .CONTEXT => to_context
  | .CSV => to_csv
  | .CUSTOM => to_custom
  | .JSON => to_json
  | .MARKDOWN => to_markdown
  | .PLAIN => to_plain
  | .SYMBOL => to_symbol
  | .TSV => to_tsv

/-- The `ENCODERS` dispatch table. -/
def ENCODERS : TSType → PyData → PyData
  | .NUMERIC => encode_numeric
  | .TEXTUAL => encode_textual

/-- The `format` facade (src/llm4time/core/formatter.py): encode the
values, then serialize.  The source's unknown-token checks cannot fire in
the typed model, as both dispatch tables are total over the closed enums. -/
def format (data : PyData) (ts_format : TSFormat) (ts_type : TSType) :
    Except String String :=
  FORMATTERS ts_format (ENCODERS ts_type data)

/-! ## String utilities shared by the deserializers -/

/-- Split loop for `pySplit`, structurally recursive on a fuel argument
so that concrete parses evaluate by `rfl` (the separator is nonempty, so
every step consumes at least one character). -/
def pySplitAux : Nat → List Char → List Char → List Char → List (List Char)
  | 0, _, _, acc => [acc.reverse]
  | fuel + 1, sep, l, acc =>
      if sep.isPrefixOf l then
        acc.reverse :: pySplitAux fuel sep (l.drop sep.length) []
      else
        match l with
        | [] => [acc.reverse]
        | c :: rest => pySplitAux fuel sep rest (c :: acc)

/-- Python `str.split(sep)` for a nonempty separator: `"" -> [""]`, and a
trailing separator yields a trailing empty field. -/
def pySplit (sep : String) (s : String) : List String :=
  (pySplitAux (s.data.length + 1) sep.data s.data []).map String.mk

/-- Python `str.strip(chars)`: remove any of the given characters from
both ends. -/
def pyStrip (chars : String) (s : String) : String :=
  String.mk
    (((s.data.dropWhile (chars.data.contains ·)).reverse.dropWhile
      (chars.data.contains ·)).reverse)

/-- Python `str.strip()` (no argument): strip surrounding whitespace. -/
def pyStripWs (s : String) : String :=
  String.mk
    ((s.data.dropWhile Char.isWhitespace).reverse.dropWhile
      Char.isWhitespace).reverse

/-- Remove every space (`str.replace(' ', '')`). -/
def pyRemoveSpaces (s : String) : String :=
  String.mk (s.data.filter (fun c => !(c == ' ')))

/-- Drop leading plain spaces (pandas `skipinitialspace=True` on a cell). -/
def dropLeadingSpaces (s : String) : String :=
  String.mk (s.data.dropWhile (fun c => c == ' '))

/-- Digit run to a natural number. -/
def digitsToNat (l : List Char) : Nat :=
  l.foldl (fun a c => a * 10 + (c.toNat - 48)) 0

/-- Is a nonempty all-digit run? -/
def isDigits (l : List Char) : Bool :=
  !l.isEmpty && l.all Char.isDigit

/-- Parse a plain decimal literal (`-?digits(.digits)?`) to a `Dec`.
This is the numeric core shared by the model of `float()` and of pandas'
cell-type inference; exponent forms and leading `+` are outside the
codec's domain and are not recognised. -/
def pyParseDec (s : String) : Option Dec :=
  let (neg, body) :=
    match s.data with
    | '-' :: rest => (true, rest)
    | l => (false, l)
  let intPart := body.takeWhile (fun c => !(c == '.'))
  let rest := body.drop intPart.length
  match rest with
  | [] =>
      if isDigits intPart then
        Option.some ⟨(if neg then -1 else 1) * (digitsToNat intPart : Int), 0⟩
      else Option.none
  | '.' :: frac =>
      if isDigits intPart && isDigits frac then
        Option.some ⟨(if neg then -1 else 1) * (digitsToNat (intPart ++ frac) : Int),
          frac.length⟩
      else Option.none
  | _ => Option.none

/-- Model of Python `float(v)` as used by the decoders, returning `none`
for the float nan.  `float` accepts surrounding whitespace and the
(case-insensitive, optionally signed) literal `nan`. -/
def pyFloat : PyVal → Except String (Option ℚ)
  | .num d => .ok (Option.some d.toRat)
  | .nan => .ok Option.none
  | .none => .error "TypeError: float() argument must not be None"
  | .str s =>
      let t := pyStripWs s
      if pyLower t = "nan" ∨ pyLower t = "+nan" ∨ pyLower t = "-nan" then
        .ok Option.none
      else
        match pyParseDec t with
        | Option.some d => .ok (Option.some d.toRat)
        | Option.none =>
            .error ("ValueError: could not convert string to float: " ++ s)

/-! ## Value decoders
(src/llm4time/core/formatting/encoders/decoders/decode_numeric.py,
 decode_textual.py).

Both decoders keep only the value slot of `(date, value)` pairs — the
timestamps are discarded — and return a list of floats (nan encoded as
`Option.none`). -/

/-- The float conversion loop of `decode_numeric`:
`float(denormalize_missing(v))` unless the denormalized value is NA. -/
def decodeVals (xs : List PyVal) : Except String (List (Option ℚ)) :=
  xs.mapM (fun v =>
    let v' := denormalize_missing v
    if pyIsNa v' then .ok Option.none else pyFloat v')

/-- `decode_numeric`: denormalize then convert each value to float,
dropping the dates of a pair payload. -/
def decode_numeric : PyData → Except String (List (Option ℚ))
  | .pairs xs => decodeVals (xs.map Prod.snd)
  | .values xs => decodeVals xs

/-- The conversion loop of `decode_textual`:
`float(str(v).replace(' ', ''))` unless the denormalized value is NA. -/
def decodeTextualVals (xs : List PyVal) : Except String (List (Option ℚ)) :=
  xs.mapM (fun v =>
    let v' := denormalize_missing v
    if pyIsNa v' then .ok Option.none
    else pyFloat (.str (pyRemoveSpaces (pyStr v'))))

/-- `decode_textual`: strip the inserted spaces, then convert to float,
dropping the dates of a pair payload. -/
def decode_textual : PyData → Except String (List (Option ℚ))
  | .pairs xs => decodeTextualVals (xs.map Prod.snd)
  | .values xs => decodeTextualVals xs

/-- The `DECODERS` dispatch table. -/
def DECODERS : TSType → PyData → Except String (List (Option ℚ))
  | .NUMERIC => decode_numeric
  | .TEXTUAL => decode_textual

/-! ## Format deserializers (src/llm4time/core/formatting/parsers/from_*.py)

The pandas-based deserializers share `pd.read_csv`, modelled by
`readTable`: split lines (blank lines skipped), split cells on the
separator, reject rows wider than the header (tokenizing error), pad
narrow rows with empty cells (read as NaN), and type-infer each cell
(decimal → number, NA token → nan, otherwise string). -/

/-- Non-blank lines of a serialized payload. -/
def splitLines (s : String) : List String :=
  (pySplit "\n" s).filter (fun l => !(l == ""))

/-- pandas cell-type inference on one cell. -/
def parseCell (s : String) : PyVal :=
  match pyParseDec s with
  | Option.some d => .num d
  | Option.none =>
      if s = "" ∨ s = "nan" ∨ s = "NaN" ∨ s = "NAN" ∨ s = "null" then .nan
      else .str s

/-- Model of `pd.read_csv(StringIO(data), sep=sep)`: header names and raw
row cells. -/
def readTable (sep : String) (s : String) :
    Except String (List String × List (List String)) :=
  match splitLines s with
  | [] => .error "EmptyDataError: No columns to parse from file"
  | header :: rows =>
      let hs := pySplit sep header
      let cells := rows.map (fun r => pySplit sep r)
      if cells.all (fun r => r.length ≤ hs.length) then
        .ok (hs, cells.map (fun r => r ++ List.replicate (hs.length - r.length) ""))
      else .error "ParserError: Error tokenizing data"

/-- `df[[name, ...]]` column lookup: position of a named column, or a
`KeyError`. -/
def findCol (hs : List String) (name : String) : Except String Nat :=
  match hs.findIdx? (fun c => c == name) with
  | Option.some i => .ok i
  | Option.none => .error ("KeyError: " ++ name)

/-- Select the `Date` and `Value` columns of a parsed table as `(date,
value)` pairs (the date cell kept as its raw string, the value cell
type-inferred as pandas does). -/
def selectDateValue (hs : List String) (rows : List (List String)) :
    Except String PyData :=
  match findCol hs "Date" with
  | .error e => .error e
  | .ok di =>
      match findCol hs "Value" with
      | .error e => .error e
      | .ok vi =>
          .ok (.pairs (rows.map (fun r => (r.getD di "", parseCell (r.getD vi "")))))

/-- `from_csv`: read comma-separated rows, select `Date`/`Value`. -/
def from_csv (data : String) : Except String PyData :=
  match readTable "," data with
  | .error e => .error e
  | .ok (hs, rows) => selectDateValue hs rows

/-- `from_tsv`: read tab-separated rows, select `Date`/`Value`. -/
def from_tsv (data : String) : Except String PyData :=
  match readTable "\t" data with
  | .error e => .error e
  | .ok (hs, rows) => selectDateValue hs rows

/-- `from_custom`: read pipe-separated rows, select `Date`/`Value`. -/
def from_custom (data : String) : Except String PyData :=
  match readTable "|" data with
  | .error e => .error e
  | .ok (hs, rows) => selectDateValue hs rows

/-- `from_symbol`: read comma-separated rows and keep only
`Date`/`Value`, discarding the `DirectionIndicator` column. -/
def from_symbol (data : String) : Except String PyData :=
  match readTable "," data with
  | .error e => .error e
  | .ok (hs, rows) => selectDateValue hs rows

/-- `from_context`: read comma-separated rows, then convert the `Value`
column to strings and strip surrounding brackets. -/
def from_context (data : String) : Except String PyData :=
  match readTable "," data with
  | .error e => .error e
  | .ok (hs, rows) =>
      match selectDateValue hs rows with
      | .error e => .error e
      | .ok (.pairs ps) =>
          .ok (.pairs (ps.map (fun p => (p.1, .str (pyStrip "[]" (pyStr p.2))))))
      | .ok other => .ok other

/-- `from_markdown`: drop the `|---|---|` separator row, strip the pipe
frame of every remaining line, then read as a pipe-separated table with
`skipinitialspace` and stripped column names. -/
def from_markdown (data : String) : Except String PyData :=
  if pyStripWs data = "" then .error "IndexError: list index out of range"
  else
    match pySplit "\n" (pyStripWs data) with
    | [] => .error "IndexError: list index out of range"
    | l0 :: rest =>
        let body := (l0 :: rest.drop 1).map (fun l => pyStrip "|" (pyStripWs l))
        match readTable "|" (pyJoin "\n" body) with
        | .error e => .error e
        | .ok (hs, rows) =>
            let hs := hs.map (fun c => pyStripWs (dropLeadingSpaces c))
            let rows := rows.map (fun r => r.map dropLeadingSpaces)
            selectDateValue hs rows

/-- One line of `from_plain`: the regex
`Date:\s*([^,]+),\s*Value:\s*(.*)` as a prefix match; both captures are
returned as raw strings. -/
def plainLine (l : String) : Option (String × PyVal) :=
  match l.data with
  | 'D' :: 'a' :: 't' :: 'e' :: ':' :: r =>
      let r := r.dropWhile Char.isWhitespace
      let date := r.takeWhile (fun c => !(c == ','))
      if date.isEmpty then Option.none
      else
        match r.drop date.length with
        | ',' :: r2 =>
            match r2.dropWhile Char.isWhitespace with
            | 'V' :: 'a' :: 'l' :: 'u' :: 'e' :: ':' :: r3 =>
                Option.some (String.mk date,
                  .str (String.mk (r3.dropWhile Char.isWhitespace)))
            | _ => Option.none
        | _ => Option.none
  | _ => Option.none

/-- `from_plain`: match every stripped line against the `Date:/Value:`
pattern, skipping lines that do not match. -/
def from_plain (data : String) : Except String PyData :=
  .ok (.pairs ((pySplit "\n" (pyStripWs data)).filterMap
    (fun l => plainLine (pyStripWs l))))

/-- `from_array`: strip surrounding brackets and split on `", "`; the
elements stay raw strings. -/
def from_array (data : String) : Except String PyData :=
  .ok (.values ((pySplit ", " (pyStrip "[]" data)).map PyVal.str))

/-! ### A small JSON reader (model of `json.loads` on the codec's domain:
an array of flat objects with string keys and scalar values; string
escapes do not occur in the serialized payloads). -/

/-- Skip JSON whitespace. -/
def jsDropWs (l : List Char) : List Char :=
  l.dropWhile (fun c => c == ' ' || c == '\n' || c == '\t' || c == '\r')

/-- One JSON scalar: string, `null`, `NaN` or a decimal number. -/
def jsScalar (l : List Char) : Option (PyVal × List Char) :=
  match jsDropWs l with
  | '"' :: rest =>
      let sdata := rest.takeWhile (fun c => !(c == '"'))
      (match rest.drop sdata.length with
       | '"' :: r => Option.some (.str (String.mk sdata), r)
       | _ => Option.none)
  | 'n' :: 'u' :: 'l' :: 'l' :: r => Option.some (.none, r)
  | 'N' :: 'a' :: 'N' :: r => Option.some (.nan, r)
  | l' =>
      let nc := l'.takeWhile (fun c => c.isDigit || c == '-' || c == '.')
      match pyParseDec (String.mk nc) with
      | Option.some d => Option.some (.num d, l'.drop nc.length)
      | Option.none => Option.none

/-- The members of one JSON object, after the opening brace. -/
def jsMembers : Nat → List Char → Option (List (String × PyVal) × List Char)
  | 0, _ => Option.none
  | fuel + 1, l =>
      match jsDropWs l with
      | '}' :: r => Option.some ([], r)
      | l' =>
          match jsScalar l' with
          | Option.some (.str k, r) =>
              (match jsDropWs r with
               | ':' :: r2 =>
                   (match jsScalar r2 with
                    | Option.some (v, r3) =>
                        (match jsDropWs r3 with
                         | ',' :: r4 =>
                             (match jsMembers fuel r4 with
                              | Option.some (ms, r5) => Option.some ((k, v) :: ms, r5)
                              | Option.none => Option.none)
                         | '}' :: r4 => Option.some ([(k, v)], r4)
                         | _ => Option.none)
                    | Option.none => Option.none)
               | _ => Option.none)
          | _ => Option.none

/-- The objects of a JSON array, after the opening bracket. -/
def jsObjects : Nat → List Char →
    Option (List (List (String × PyVal)) × List Char)
  | 0, _ => Option.none
  | fuel + 1, l =>
      match jsDropWs l with
      | ']' :: r => Option.some ([], r)
      | '{' :: r =>
          (match jsMembers fuel r with
           | Option.some (obj, r2) =>
               (match jsDropWs r2 with
                | ',' :: r3 =>
                    (match jsObjects fuel r3 with
                     | Option.some (objs, r4) => Option.some (obj :: objs, r4)
                     | Option.none => Option.none)
                | ']' :: r3 => Option.some ([obj], r3)
                | _ => Option.none)
           | Option.none => Option.none)
      | _ => Option.none

/-- `json.loads` on an array of flat objects. -/
def jsonLoads (s : String) : Option (List (List (String × PyVal))) :=
  match jsDropWs s.data with
  | '[' :: r =>
      (match jsObjects (s.data.length + 1) r with
       | Option.some (objs, rest) =>
           (match jsDropWs rest with
            | [] => Option.some objs
            | _ => Option.none)
       | Option.none => Option.none)
  | _ => Option.none

/-- `from_json`: decode the array of objects and take the `Date` and
`Value` members of each. -/
def from_json (data : String) : Except String PyData :=
  match jsonLoads data with
  | Option.none => .error "JSONDecodeError: Expecting value"
  | Option.some objs =>
      match objs.mapM (fun obj =>
        match obj.lookup "Date", obj.lookup "Value" with
        | Option.some dv, Option.some vv => Option.some (pyStr dv, vv)
        | _, _ => Option.none) with
      | Option.some ps => .ok (.pairs ps)
      | Option.none => .error "KeyError: Date"

/-- The `PARSERS` dispatch table. -/
def PARSERS : TSFormat → String → Except String PyData
  | .ARRAY => from_array
  | .CONTEXT => from_context
  | .CSV => from_csv
  | .CUSTOM => from_custom
  | .JSON => from_json
  | .MARKDOWN => from_markdown
  | .PLAIN => from_plain
  | .SYMBOL => from_symbol
  | .TSV => from_tsv

/-! ## Window samplers (src/llm4time/core/data/sampling.py)

The samplers slice arbitrary lists; Python's slice semantics (negative
indices measured from the end, out-of-range bounds clamped) are modelled
by `pySlice`.  The slices are polymorphic in the element type, as in the
source. -/

/-- Clamp one Python slice bound for a list of length `n`. -/
def pyIdx (n : Nat) (i : Int) : Nat :=
  let i' := if i < 0 then i + n else i
  if i' < 0 then 0 else min i'.toNat n

/-- Python `xs[i:j]`. -/
def pySlice {α : Type} (xs : List α) (i j : Int) : List α :=
  (xs.take (pyIdx xs.length j)).drop (pyIdx xs.length i)

/-- The loop of `frontend`, recursing over `range(num_samples)` with the
source's early `break` once a pair would overrun the series. -/
def frontendAux {α : Type} (data : List α) (w : Nat) :
    Nat → Nat → List (List α × List α)
  | _, 0 => []
  | i, fuel + 1 =>
      let start_in := i * 2 * w
      let end_in := start_in + w
      let start_out := end_in
      let end_out := start_out + w
      if data.length < end_out then []
      else
        (pySlice data (start_in : Int) (end_in : Int),
         pySlice data (start_out : Int) (end_out : Int)) ::
          frontendAux data w (i + 1) fuel

/-- `frontend`: sequential pairs from index 0, each consuming
`2*window_size` points, stopping at the first overrun. -/
def frontend {α : Type} (data : List α) (window_size num_samples : Nat) :
    List (List α × List α) :=
  frontendAux data window_size 0 num_samples

/-- `backend`: sequential pairs laid out from the end of the series; the
sample count is first capped at `len(data) // window_size - 1`
(`window_size = 0` raises `ZeroDivisionError`). -/
def backend {α : Type} (data : List α) (window_size num_samples : Nat) :
    Except String (List (List α × List α)) :=
  if window_size = 0 then
    .error "ZeroDivisionError: integer division or modulo by zero"
  else
    let total : Int := (data.length : Int) / window_size - 1
    let ns : Int := min (num_samples : Int) total
    .ok ((List.range ns.toNat).map (fun (i : Nat) =>
      let offset : Int := (ns - (i : Int)) * window_size * 2
      let start_in : Int := (data.length : Int) - offset
      let end_in : Int := start_in + window_size
      let start_out := end_in
      let end_out := start_out + window_size
      (pySlice data start_in end_in, pySlice data start_out end_out)))

/-- `random`: pairs at the drawn starting indices.  The draw itself —
`sorted(np.random.choice(range(max_start + 1), size=min(num_samples,
max_start + 1), replace=False))` — is the external randomness source and
is passed in as `starts`; the source guarantees every drawn start lies in
`[0, max_start]`. -/
def random {α : Type} (data : List α) (window_size : Nat)
    (starts : List Nat) : List (List α × List α) :=
  let max_start : Int := (data.length : Int) - 2 * window_size
  if max_start < 0 then []
  else
    starts.map (fun start =>
      let end_in := start + window_size
      let start_out := end_in
      let end_out := start_out + window_size
      (pySlice data (start : Int) (end_in : Int),
       pySlice data (start_out : Int) (end_out : Int)))

/-- `np.linspace(0, max_start, num_samples)` truncated to ints:
`max_start * i / (num_samples - 1)` rounded down. -/
def linspaceStarts (max_start num_samples : Nat) : List Nat :=
  if num_samples = 1 then [0]
  else (List.range num_samples).map (fun i => max_start * i / (num_samples - 1))

/-- `range(0, stop, step)` for a positive step (Python raises
`ValueError` on `step = 0`; the embedding returns no starts there, which
the theorems exclude by hypothesis). -/
def pyRangeStep (stop step : Nat) : List Nat :=
  if step = 0 then []
  else (List.range ((stop + step - 1) / step)).map (fun i => i * step)

/-- `uniform`: evenly spaced pairs (linear interpolation, integer
truncated), or every `step`-th start capped at `num_samples` pairs;
no pairs when the series cannot hold a single pair or `num_samples ≤ 0`. -/
def uniform {α : Type} (data : List α) (window_size num_samples : Nat)
    (step : Option Nat) : List (List α × List α) :=
  let max_start : Int := (data.length : Int) - 2 * window_size
  if max_start < 0 ∨ num_samples = 0 then []
  else
    let starts : List Nat :=
      match step with
      | Option.none => linspaceStarts max_start.toNat num_samples
      | Option.some st => (pyRangeStep (max_start.toNat + 1) st).take num_samples
    starts.map (fun start =>
      let end_in := start + window_size
      let start_out := end_in
      let end_out := start_out + window_size
      (pySlice data (start : Int) (end_in : Int),
       pySlice data (start_out : Int) (end_out : Int)))

/-- A well-formed sampler pair: history and forecast are contiguous
adjacent windows of length exactly `w` drawn from the series. -/
def wfPair {α : Type} (data : List α) (w : Nat) (p : List α × List α) : Prop :=
  ∃ s : Nat, s + 2 * w ≤ data.length ∧
    p.1 = (data.drop s).take w ∧ p.2 = (data.drop (s + w)).take w ∧
    p.1.length = w ∧ p.2.length = w

/-! ## Preprocessing standardisation
(src/llm4time/core/data/preprocessor.py, `select_columns`)

The uploaded table is a pandas frame, modelled as named columns of
`PyVal` cells.  `select_columns` keeps the `date_col`/`value_col`
columns, renames them to `date`/`value`, converts the dates (the
verified claims use ISO date strings, whose chronological order is their
lexicographic order), sorts ascending, and resolves duplicates — the
duplicate step referencing the ORIGINAL column names. -/

/-- One column of the uploaded table (`df[name]`), or a `KeyError`. -/
def colCells (df : List (String × List PyVal)) (name : String) :
    Except String (List PyVal) :=
  match df.lookup name with
  | Option.some cells => .ok cells
  | Option.none => .error ("KeyError: " ++ name)

/-- Exact addition of decimal literals (Python float addition on the
embedding's decimal domain). -/
def decAdd (a b : Dec) : Dec :=
  ⟨a.m * 10 ^ (max a.e b.e - a.e) + b.m * 10 ^ (max a.e b.e - b.e), max a.e b.e⟩

/-- pandas `.sum()` over one group's cells (numeric only). -/
def sumVals : List PyVal → Except String PyVal
  | [] => .ok (.num ⟨0, 0⟩)
  | v :: vs =>
      match v, sumVals vs with
      | .num d, .ok (.num s) => .ok (.num (decAdd d s))
      | _, .error e => .error e
      | _, _ => .error "TypeError: unsupported operand type for +"

/-- Stable insertion into a date-sorted row list (rows with an earlier
or equal date stay in front). -/
def insertByDate (r : PyVal × PyVal) :
    List (PyVal × PyVal) → List (PyVal × PyVal)
  | [] => [r]
  | x :: xs =>
      if strLtB (pyStr x.1) (pyStr r.1) then x :: insertByDate r xs
      else r :: x :: xs

/-- `df.sort_values('date', ascending=True)` on the standardized frame. -/
def sortByDate (rows : List (PyVal × PyVal)) : List (PyVal × PyVal) :=
  rows.foldr insertByDate []

/-- `drop_duplicates(keep='first')` by a key projection: keep the first
row of every key. -/
def dedupFirstAux (key : PyVal × PyVal → PyVal) (seen : List PyVal) :
    List (PyVal × PyVal) → List (PyVal × PyVal)
  | [] => []
  | x :: xs =>
      if seen.contains (key x) then dedupFirstAux key seen xs
      else x :: dedupFirstAux key (key x :: seen) xs

/-- `drop_duplicates(subset=[c], keep='first')`. -/
def dedupFirst (key : PyVal × PyVal → PyVal) (rows : List (PyVal × PyVal)) :
    List (PyVal × PyVal) :=
  dedupFirstAux key [] rows

/-- `drop_duplicates(subset=[c], keep='last')`: keep the last row of
every key, preserving order. -/
def dedupLast (key : PyVal × PyVal → PyVal) (rows : List (PyVal × PyVal)) :
    List (PyVal × PyVal) :=
  (dedupFirstAux key [] rows.reverse).reverse

/-- The distinct keys of a cell list, first occurrences in order. -/
def dedupKeys (seen : List PyVal) : List PyVal → List PyVal
  | [] => []
  | d :: ds =>
      if seen.contains d then dedupKeys seen ds
      else d :: dedupKeys (d :: seen) ds

/-- `df.groupby('date', as_index=False)['value'].sum()` on a date-sorted
frame: one row per distinct date, values summed in row order (`groupby`
sorts by key; the input is already date-sorted). -/
def groupSum (rows : List (PyVal × PyVal)) :
    Except String (List (PyVal × PyVal)) :=
  (dedupKeys [] (rows.map Prod.fst)).mapM (fun d =>
    match sumVals ((rows.filter (fun r => r.1 == d)).map Prod.snd) with
    | .ok s => .ok (d, s)
    | .error e => .error e)

/-- The key projection selected by `subset=[c]` on the RENAMED frame,
whose columns are `date` and `value`; any other name is a `KeyError`.
(`c = "value"` can only arise when the caller's date column is literally
named `value`.) -/
def subsetKey (c : String) : Except String (PyVal × PyVal → PyVal) :=
  if c = "date" then .ok Prod.fst
  else if c = "value" then .ok Prod.snd
  else .error ("KeyError: " ++ c)

/-- `select_columns`: select and rename the caller's columns, sort by
date, then resolve duplicates per the policy — where the duplicate step
looks the ORIGINAL `date_col`/`value_col` names up in the renamed frame.
The aliased `sum` combinations (caller columns literally named
`value`/`date` crosswise) are outside the verified domain and map to a
pandas `ValueError`. -/
def select_columns (df : List (String × List PyVal))
    (date_col value_col : String) (duplicates : Option String) :
    Except String (List (PyVal × PyVal)) :=
  match colCells df date_col, colCells df value_col with
  | .error e, _ => .error e
  | .ok _, .error e => .error e
  | .ok dcells, .ok vcells =>
      let rows := sortByDate (dcells.zip vcells)
      if duplicates = Option.some "first" then
        match subsetKey date_col with
        | .ok k => .ok (dedupFirst k rows)
        | .error e => .error e
      else if duplicates = Option.some "last" then
        match subsetKey date_col with
        | .ok k => .ok (dedupLast k rows)
        | .error e => .error e
      else if duplicates = Option.some "sum" then
        if date_col = "date" ∧ value_col = "value" then groupSum rows
        else
          match subsetKey date_col, subsetKey value_col with
          | .error e, _ => .error e
          | .ok _, .error e => .error e
          | .ok _, .ok _ => .error "ValueError: cannot insert, already exists"
      else .ok rows

/-! ## Decomposition statistics
(src/llm4time/core/evaluate/statistics.py, `Statistics.trend_seasonality`)

The STL fit itself is the statsmodels collaborator (spec §9) and is
passed in as `stlFit`; its failure models the exception the source
catches (`too few points`, etc.).  pandas' `to_datetime`/`asfreq` steps
are datetime collaborators whose failures the source also absorbs into
the same outcome; the verified claims exercise well-formed ISO dates, so
they are modelled as succeeding.  The whole function is total: every
failure is absorbed into the defined "not computable" outcome
`(None, None, None, nan, nan)` (nan modelled as `Option.none`). -/

/-- Python `round(x, 4)` (half-to-even) on the exact rational value. -/
def pyRound4 (x : ℚ) : ℚ :=
  let y := x * 10000
  let f := ⌊y⌋
  let r := y - f
  let n : Int :=
    if r < 1/2 then f
    else if 1/2 < r then f + 1
    else if f % 2 = 0 then f else f + 1
  mkRat n 10000

/-- `np.var` (population variance, `ddof=0`); `none` (nan) on an empty
series. -/
def pyVar (xs : List ℚ) : Option ℚ :=
  match xs with
  | [] => Option.none
  | _ =>
      let μ := xs.sum * mkRat 1 xs.length
      Option.some (((xs.map (fun x => (x - μ) * (x - μ))).sum) * mkRat 1 xs.length)

/-- Elementwise sum of two aligned pandas series (`trend + resid`). -/
def seriesAdd (a b : List ℚ) : List ℚ := List.zipWith (· + ·) a b

/-- The "not computable" outcome `(None, None, None, np.nan, np.nan)`. -/
def stlNone :
    Option (List ℚ) × Option (List ℚ) × Option (List ℚ) × Option ℚ × Option ℚ :=
  (Option.none, Option.none, Option.none, Option.none, Option.none)

/-- `Statistics.trend_seasonality`: missing `date`/`value` columns, a
failing STL fit, or non-positive component variances all yield the
defined "not computable" outcome; otherwise the rounded components and
the two strengths `1 - var(resid)/var(component + resid)`. -/
def trend_seasonality (cols : List String) (values : List ℚ)
    (period : Option Nat) (freq : Option String)
    (stlFit : List ℚ → Option Nat → Except String (List ℚ × List ℚ × List ℚ)) :
    Option (List ℚ) × Option (List ℚ) × Option (List ℚ) × Option ℚ × Option ℚ :=
  if ¬ "date" ∈ cols then stlNone
  else if ¬ "value" ∈ cols then stlNone
  else
    match stlFit values period with
    | .error _ => stlNone
    | .ok (t, s, r) =>
        let trend := t.map pyRound4
        let seasonal := s.map pyRound4
        let resid := r.map pyRound4
        let trend_strength : Option ℚ :=
          match pyVar (seriesAdd trend resid), pyVar resid with
          | Option.some vt, Option.some vr =>
              if 0 < vt then Option.some (pyRound4 (1 - vr / vt)) else Option.none
          | _, _ => Option.none
        let seasonality_strength : Option ℚ :=
          match pyVar (seriesAdd seasonal resid), pyVar resid with
          | Option.some vs, Option.some vr =>
              if 0 < vs then Option.some (pyRound4 (1 - vr / vs)) else Option.none
          | _, _ => Option.none
        (Option.some trend, Option.some seasonal, Option.some resid,
         trend_strength, seasonality_strength)

/-! ## The `parse` facade (src/llm4time/core/formatter.py) -/

/-- The primary parse path: deserialize per the format, then decode the
values per the value type. -/
def primaryParse (data : String) (ts_format : TSFormat) (ts_type : TSType) :
    Except String (List (Option ℚ)) :=
  match PARSERS ts_format data with
  | .error e => .error e
  | .ok payload => DECODERS ts_type payload

/-- The `parse` facade: try the primary path; on any exception fall back
to parsing as `ARRAY` with numeric values.  An exception inside the
fallback itself propagates. -/
def parse (data : String) (ts_format : TSFormat) (ts_type : TSType) :
    Except String (List (Option ℚ)) :=
  match primaryParse data ts_format ts_type with
  | .ok r => .ok r
  | .error _ =>
      match PARSERS .ARRAY data with
      | .error e => .error e
      | .ok payload => DECODERS .NUMERIC payload

/-! ## Prompt assembly (src/llm4time/core/prompt.py and
src/llm4time/core/prompts/)

The templates below are the source's template strings, verbatim.  The
descriptive statistics and the STL strengths interpolated into them are
computed by the external numeric collaborators (spec §4.5 step 2, §9) —
they raise no exception for a numeric series (`trend_seasonality` is
total by construction, see above) — and are passed in as the rendered
strings `stats`.  `np.random.choice`'s draw for the RANDOM strategy is
passed as `rng` (see `random` above). -/

/-- The closed set of five prompt strategies. -/
inductive PromptType where
  | ZERO_SHOT | FEW_SHOT | COT | COT_FEW | CUSTOM
deriving DecidableEq, Repr

/-- The closed set of four sampling strategies. -/
inductive Sampling where
  | FRONTEND | BACKEND | RANDOM | UNIFORM
deriving DecidableEq, Repr

/-- The rendered descriptive/decomposition statistics of the training
window (external numeric collaborators). -/
structure StatsVars where
  mean : String
  median : String
  std : String
  min : String
  max : String
  first_quartile : String
  third_quartile : String
  trend_strength : String
  seasonality_strength : String
deriving DecidableEq, Repr

/-- One segment of a format-string template: Python's formatter parses
a template into literal text and `{name}` replacement fields; the
templates below carry the source text of `src/llm4time/core/prompts/`
verbatim in their literal segments, in order. -/
inductive TmplPiece where
  | lit : String → TmplPiece
  | field : String → TmplPiece
deriving DecidableEq, Repr

/-- `prompts/zero_shot.py`: the ZERO_SHOT template, segmented into its
literal and replacement-field pieces. -/
def ZERO_SHOT : List TmplPiece :=
  [.lit "\nVocê é um modelo especializado em previsão de séries temporais. Seu papel é prever os próximos valores com base em padrões históricos, independentemente do domínio dos dados.\n\nA série temporal tem dados de ",
   .field "n_periods_input",
   .lit " período(s) consecutivos. Cada anotação da série temporal representa a incidência de um evento que ocorre a cada ",
   .field "freq",
   .lit ".\n\nInício da Previsão:\nA previsão deve iniciar imediatamente após o último ponto da série, seguindo o padrão histórico detectado nos dados anteriores.\nPara este exemplo, um início de previsão esperado pode ser:\n",
   .field "input_example",
   .lit "\nGaranta que o primeiro valor da previsão corresponda ao início do período, respeitando os padrões observados.\n\nObjetivo:\nSeu objetivo é prever os próximos ",
   .field "n_periods_forecast",
   .lit " valores da série temporal, levando em consideração os padrões históricos, tendências e quaisquer efeitos sazonais ou contextuais detectáveis nos dados.\n\nRegras da Saída:\nApós analisar os dados fornecidos e compreender os padrões, gere uma previsão para os próximos ",
   .field "n_periods_forecast",
   .lit " períodos, com as seguintes regras:\nA saída deve ser exclusivamente um array numérico (lista com ",
   .field "n_periods_forecast",
   .lit " valores);\nEm hipótese alguma gere um código;\nEm hipótese alguma gere uma explicação do que você fez;\nForneça apenas e exclusivamente um array contendo a quantidade de números solicitados.\nA previsão deve começar com o valor correspondente ao início do próximo período, respeitando os padrões observados nos dados históricos.\n\nExemplo de Saída para N=",
   .field "n_periods_example",
   .lit ":\n",
   .field "output_example",
   .lit "\n\nInstruções Adicionais:\nPadrões Temporais: Utilize os dados fornecidos para identificar padrões sazonais ou recorrências que se repetem ao longo do tempo, como tendências ou ciclos característicos da série.\nEventos Especiais: A ocorrência de eventos pode ser significativamente afetada por fatores contextuais relevantes, como feriados, promoções, mudanças políticas, condições climáticas, entre outros.\nPeriodicidade e Contexto Temporal: Considere o impacto de variações regulares baseadas em unidades de tempo recorrentes (",
   .field "freq",
   .lit "), conforme apropriado ao domínio da série.\nDuração de um Evento: A série temporal fornecida representa a ocorrência de um evento a cada ",
   .field "freq",
   .lit ".\n\nSérie temporal a ser analisada:\n",
   .field "input",
   .lit "\n\nGere um array com ",
   .field "n_periods_forecast",
   .lit " observações (N=",
   .field "n_periods_forecast",
   .lit ") prevendo os números da sequência:\n"]

/-- `prompts/few_shot.py`: the FEW_SHOT template, segmented into its
literal and replacement-field pieces. -/
def FEW_SHOT : List TmplPiece :=
  [.lit "\nVocê é um assistente de previsão de séries temporais encarregado de analisar dados de uma série temporal específica.\n\nA série temporal tem dados de ",
   .field "n_periods_input",
   .lit " período(s) consecutivos. Cada anotação da série temporal representa a incidência de um evento que ocorre a cada ",
   .field "freq",
   .lit ".\n\nInício da Previsão:\nSua previsão deve começar a partir do próximo período (meia-noite do próximo dia), seguindo o padrão observado nos dados anteriores.\nPara este exemplo, um início de previsão esperado pode ser:\n",
   .field "input_example",
   .lit "\nGaranta que o primeiro valor da previsão corresponda ao início do período, respeitando os padrões observados.\n\nObjetivo:\nSeu objetivo é prever a incidência de um evento para os próximos ",
   .field "n_periods_forecast",
   .lit " períodos, considerando os dados históricos e o contexto geral da série temporal.\n\nRegras da Saída:\nApós analisar os dados fornecidos e compreender os padrões de tráfego, gere uma previsão para os próximos ",
   .field "n_periods_forecast",
   .lit " períodos, com as seguintes regras:\nA saída deve ser uma lista contendo apenas os valores previstos, sem explicação adicional ou texto introdutório.\nEm hipótese alguma gere um código;\nEm hipótese alguma gere uma explicação do que você fez;\nForneça apenas e exclusivamente um array contendo a quantidade de números solicitados.\nA previsão deve começar com o valor correspondente ao início do próximo período, respeitando os padrões observados nos dados históricos.\n\nExemplo de Saída para N=",
   .field "n_periods_example",
   .lit ":\n",
   .field "output_example",
   .lit "\n\nInstruções Adicionais:\nPadrões Semanais: Utilize os dados fornecidos para entender padrões sazonais, como picos de incidência em determinados períodos.\nEventos Especiais: A ocorrência de eventos é significativamente afetada por feriados e outros eventos importantes.\nDia da Semana: O dia da semana também influencia a ocorrência de eventos.\nDuração de um evento: A série temporal fornecida representa a ocorrência de um evento a cada hora.\n\nOrganização dos Dados:\nOs dados da série temporal são apresentados como uma sequencia de valores, onde cada valor representa um período consecutivo.\n\nSérie temporal a ser analisada:\n",
   .field "input",
   .lit "\n\n=======================\nExemplos de um Período N=",
   .field "n_periods_example",
   .lit ":\n\n",
   .field "examples",
   .lit "\n\n=======================\n\nGere um array com ",
   .field "n_periods_forecast",
   .lit " posições (N=",
   .field "n_periods_forecast",
   .lit ") prevendo os números da sequência:\n"]

/-- `prompts/cot.py`: the COT template, segmented into its
literal and replacement-field pieces. -/
def COT : List TmplPiece :=
  [.lit "\nVocê é um especialista em modelagem estatística e aprendizado de máquina com foco em previsão de séries temporais.\n\nObjetivo:\nPrever os próximos ",
   .field "n_periods_forecast",
   .lit " valores com base na série histórica (",
   .field "n_periods_input",
   .lit " períodos).\n\nContexto Estatístico (para guiar a previsão):\n- Média: ",
   .field "mean",
   .lit "\n- Mediana: ",
   .field "median",
   .lit "\n- Desvio Padrão: ",
   .field "std",
   .lit "\n- Valor Mínimo: ",
   .field "min",
   .lit "\n- Valor Máximo: ",
   .field "max",
   .lit "\n- Primeiro Quartil (Q1): ",
   .field "first_quartile",
   .lit "\n- Terceiro Quartil (Q3): ",
   .field "third_quartile",
   .lit "\n- Força da Tendência (STL): ",
   .field "trend_strength",
   .lit "\n- Força da Sazonalidade (STL): ",
   .field "seasonality_strength",
   .lit "\n\nInstruções de Raciocínio:\nAntes de gerar a previsão, analise a série histórica passo a passo, considerando:\n- Tendência: Identifique a direção geral (crescente, decrescente, estável) e a força da tendência.\n- Sazonalidade: Padrões que se repetem em intervalos regulares (ex.: diário, semanal, mensal).\n- Eventos atípicos: Possíveis outliers ou mudanças abruptas.\n- Ciclos: Padrões de longo prazo que não são sazonais.\n- Redução de ruído: Aplique uma técnica para reduzir o ruído quando necessário.\n- Consistência com as estatísticas descritivas fornecidas (média, mediana, etc.).\n- Ajuste para a frequência dos dados e eventos contextuais (feriados, promoções, etc.).\n\nRegras:\n1. A previsão deve iniciar imediatamente após o último ponto observado.\n2. Produza apenas os valores previstos, sem texto, comentários ou código.\n3. Delimite a saída exclusivamente com <out></out>.\n\nEtapas:\n1. Analise a série passo a passo (em seu raciocínio interno, não inclua na saída final).\n2. Gere a previsão para os próximos ",
   .field "n_periods_forecast",
   .lit " períodos.\n3. Formate a saída exatamente como no exemplo, com os valores dentro de <out>.\n\nExemplo:\n<out>\n",
   .field "output_example",
   .lit "\n</out>\n\nDados da Série para previsão:\n",
   .field "input",
   .lit "\n"]

/-- `prompts/cot_few.py`: the COT_FEW template, segmented into its
literal and replacement-field pieces. -/
def COT_FEW : List TmplPiece :=
  [.lit "\nVocê é um assistente de previsão de séries temporais encarregado de analisar dados de uma série temporal específica.\n\nA série temporal tem dados de ",
   .field "num_periods_train",
   .lit " período(s) consecutivos. Cada anotação da série temporal representa a incidência de um evento que ocorre a cada dia.\n\nInício da Previsão:\nSua previsão deve começar a partir do próximo período (meia-noite do próximo dia), seguindo o padrão observado nos dados anteriores.\nPara este exemplo, um início de previsão esperado pode ser:\n",
   .field "start_forecast_example",
   .lit "\nGaranta que o primeiro valor da previsão corresponda ao início do período, respeitando os padrões observados.\n\nObjetivo:\nSeu objetivo é prever a incidência de um evento para os próximos ",
   .field "num_periods_forecast",
   .lit " períodos, considerando os dados históricos e o contexto geral da série temporal.\n\nSiga este raciocínio passo a passo:\n1. Analise os dados fornecidos para identificar tendências gerais (crescimento, queda ou estabilidade).\n2. Identifique padrões semanais recorrentes, como variações nos fins de semana ou dias úteis.\n3. Considere a presença de sazonalidade diária ou semanal que possa afetar os valores futuros.\n4. Avalie se há feriados ou eventos especiais no histórico que afetam significativamente os dados.\n5. Considere o impacto do dia da semana sobre os valores previstos.\n6. Com base nessas observações, projete os próximos valores de forma coerente com os padrões detectados.\n\nExplicação do Raciocínio:\nAntes de apresentar o resultado final, explique detalhadamente:\n1. O que você utilizou dos dados históricos e por quê.\n2. Quais padrões, tendências ou sazonalidades você identificou na série temporal.\n3. Como você utilizou o dia da semana, feriados ou eventos especiais (caso existam) para ajustar sua previsão.\n4. Como esses elementos influenciaram na construção do seu array final.\n\nRegras da Saída:\nApós analisar os dados fornecidos e compreender os padrões de tráfego, gere uma previsão para os próximos ",
   .field "num_periods_forecast",
   .lit " dias, com as seguintes regras:\nA saída deve ser uma lista contendo apenas os valores previstos, sem explicação adicional ou texto introdutório.\nEm hipótese alguma gere um código;\nEm hipótese alguma gere uma explicação do que você fez;\nForneça apenas e exclusivamente um array contendo a quantidade de números solicitados.\nA previsão deve começar com o valor correspondente ao início do próximo período, respeitando os padrões observados nos dados históricos.\n\nExemplo de Saída para N=",
   .field "num_periods_example",
   .lit ":\n",
   .field "output_example",
   .lit "\n\nInstruções Adicionais:\nPadrões Semanais: Utilize os dados fornecidos para entender padrões sazonais, como picos de incidência em determinados períodos.\nEventos Especiais: A ocorrência de eventos é significativamente afetada por feriados e outros eventos importantes.\nDia da Semana: O dia da semana também influencia a ocorrência de eventos.\nDuração de um evento: A série temporal fornecida representa a ocorrência de um evento a cada hora.\n\nOrganização dos Dados:\nOs dados da série temporal são apresentados como uma sequencia de valores, onde cada valor representa um período consecutivo.\n\nSérie temporal a ser analisada:\n",
   .field "train_data",
   .lit "\n\n=======================\nExemplos de um Período N=",
   .field "num_periods_forecast",
   .lit ":\n\nExemplo 1:\nPeríodo (histórico):\n",
   .field "window1",
   .lit "\nPeríodo (prevista):\n",
   .field "window2",
   .lit "\n\nExemplo 2:\nPeríodo (histórico):\n",
   .field "window3",
   .lit "\nPeríodo (prevista):\n",
   .field "window4",
   .lit "\n\n=======================\n\nGere um array com ",
   .field "num_periods_forecast",
   .lit " posições (N=",
   .field "num_periods_forecast",
   .lit ") prevendo os números da sequência:\n"]

/-- Python `template.format(**vars)`: substitute every replacement
field from the variable map, left to right, failing with the FIRST
missing key (Python's `KeyError`). -/
def pyFormat (vars : List (String × String)) :
    List TmplPiece → Except String String
  | [] => .ok ""
  | .lit s :: rest =>
      (match pyFormat vars rest with
       | .ok tail => .ok (s ++ tail)
       | .error e => .error e)
  | .field k :: rest =>
      (match vars.lookup k with
       | Option.some v =>
           (match pyFormat vars rest with
            | .ok tail => .ok (v ++ tail)
            | .error e => .error e)
       | Option.none => .error k)

/-- The sizing error of `generate`. -/
def sizingMsg (m : Nat) : String :=
  "Para o número de exemplos solicitado é necessário pelo menos " ++
    intStr m ++ " períodos."

/-- The missing-template-key error of `generate` (the `KeyError` repr
interpolated into `ValueError`). -/
def keyMsg (k : String) : String :=
  "Chave \u0027" ++ k ++ "\u0027 não definida."

/-- `prompt_map[prompt_type].format(**base_kwargs)` with the `KeyError`
wrapped as the missing-key `ValueError`.  (The CUSTOM-without-template
case is unreachable: `generate` rejects it up front.) -/
def renderTemplate (prompt_type : PromptType) (template : Option (List TmplPiece))
    (vars : List (String × String)) : Except String String :=
  let tmpl :=
    match prompt_type with
    | .ZERO_SHOT => ZERO_SHOT
    | .FEW_SHOT => FEW_SHOT
    | .COT_FEW => COT_FEW
    | .COT => COT
    | .CUSTOM => match template with | Option.some t => t | Option.none => []
  match pyFormat vars tmpl with
  | .ok s => .ok s
  | .error k => .error (keyMsg k)

/-- The `sampling_map[sampling](train, window_size=n_periods_example,
num_samples=num_examples)` dispatch (`uniform` is called without a
step). -/
def sampleDispatch (strat : Sampling) (train : List (String × PyVal))
    (w n : Nat) (rng : List Nat) :
    Except String (List (List (String × PyVal) × List (String × PyVal))) :=
  match strat with
  | .FRONTEND => .ok (frontend train w n)
  | .BACKEND => backend train w n
  | .RANDOM => .ok (random train w rng)
  | .UNIFORM => .ok (uniform train w n Option.none)

/-- The numbered `Exemplo i:` blocks rendered from the sampled window
pairs. -/
def exampleBlocks (ts_format : TSFormat) (ts_type : TSType) :
    Nat → List (List (String × PyVal) × List (String × PyVal)) →
    Except String (List String)
  | _, [] => .ok []
  | i, (history, forecast) :: rest =>
      match format (.pairs history) ts_format ts_type,
        format (.pairs forecast) ts_format ts_type with
      | .ok hs, .ok fs =>
          (match exampleBlocks ts_format ts_type (i + 1) rest with
           | .ok bs =>
               .ok (("Exemplo " ++ intStr i ++ ":\n" ++
                 "Entrada (histórico):\n" ++ hs ++ "\n" ++
                 "Saída (previsto):\n<out>\n" ++ fs ++ "\n</out>\n") :: bs)
           | .error e => .error e)
      | .error e, _ => .error e
      | _, .error e => .error e

/-- `generate` (src/llm4time/core/prompt.py): validate the CUSTOM
template, build the base template variables (the `format` serializations
and the statistics collaborators), apply the caller's `kwargs`
overrides, enforce the sizing precondition, draw and render the examples
when a sampling strategy is given, and substitute into the selected
template.  Variable lookup resolves the sampler's `examples` first, then
`kwargs`, then the base variables (`dict.update` precedence). -/
def generate (train : List (String × PyVal)) (periods : Nat)
    (prompt_type : PromptType) (ts_format : TSFormat) (ts_type : TSType)
    (sampling : Option Sampling) (num_examples : Nat)
    (template : Option (List TmplPiece)) (kwargs : List (String × String))
    (stats : StatsVars) (rng : List Nat) : Except String String :=
  if prompt_type = PromptType.CUSTOM ∧ template = Option.none then
    .error "Para o tipo CUSTOM é obrigatório um template."
  else
    let n_periods_input := train.length
    let n_periods_forecast := periods
    let n_periods_example := periods
    match format (.pairs train) ts_format ts_type with
    | .error e => .error e
    | .ok inputStr =>
    match format (.pairs (train.take 4)) ts_format ts_type with
    | .error e => .error e
    | .ok inputExampleStr =>
    match format (.pairs (train.take n_periods_example)) ts_format ts_type with
    | .error e => .error e
    | .ok outputExampleStr =>
      let base_kwargs : List (String × String) :=
        [("input", inputStr),
         ("input_example", inputExampleStr),
         ("output_example", outputExampleStr),
         ("n_periods_input", intStr n_periods_input),
         ("n_periods_forecast", intStr n_periods_forecast),
         ("n_periods_example", intStr n_periods_example),
         ("mean", stats.mean), ("median", stats.median), ("std", stats.std),
         ("min", stats.min), ("max", stats.max),
         ("first_quartile", stats.first_quartile),
         ("third_quartile", stats.third_quartile),
         ("trend_strength", stats.trend_strength),
         ("seasonality_strength", stats.seasonality_strength)]
      let vars := kwargs ++ base_kwargs
      let min_required := n_periods_forecast * 2 * num_examples
      if n_periods_input < min_required then .error (sizingMsg min_required)
      else
        match sampling with
        | Option.none => renderTemplate prompt_type template vars
        | Option.some strat =>
            match sampleDispatch strat train n_periods_example num_examples rng with
            | .error e => .error e
            | .ok samples =>
                match exampleBlocks ts_format ts_type 1 samples with
                | .error e => .error e
                | .ok blocks =>
                    renderTemplate prompt_type template
                      (("examples", pyJoin "\n" blocks) :: vars)

/-- A concrete numeric test series `[("d0", 0), ("d1", 1), ...]` used by
the witnesses. -/
def mkSeries (n : Nat) : List (String × PyVal) :=
  (List.range n).map
    (fun (i : Nat) => ("d" ++ intStr (Int.ofNat i), PyVal.num ⟨Int.ofNat i, 0⟩))

/-- Concrete rendered statistics for the witnesses. -/
def stats0 : StatsVars := ⟨"1", "1", "0", "1", "1", "1", "1", "nan", "nan"⟩

/-- A character that a decimal rendering may contain: it is unchanged by
`lower()` and is not one of the letters of the sentinel `"nan"`. -/
def charOk (c : Char) : Prop := c.toLower = c ∧ c ≠ 'n' ∧ c ≠ 'a'

instance : DecidablePred charOk := fun c => by
  unfold charOk; infer_instance

end LLM4Time

namespace LLM4Time

/-! ## Lemmas: decimal renderings never collide with the `"nan"` sentinel -/

theorem charOk_digitChar (n : Nat) : charOk (Char.ofNat (48 + n % 10)) := by
  have h10 : n % 10 < 10 := Nat.mod_lt _ (by omega)
  interval_cases h : n % 10 <;> decide

theorem natDigitsAux_ok (fuel n : Nat) (acc : List Char)
    (hacc : ∀ c ∈ acc, charOk c) : ∀ c ∈ natDigitsAux fuel n acc, charOk c := by
  induction fuel generalizing n acc with
  | zero => exact hacc
  | succ fuel ih =>
    rw [natDigitsAux]
    by_cases h : n < 10
    · simp only [h, if_true]
      intro c hc
      rcases List.mem_cons.mp hc with rfl | hmem
      · exact charOk_digitChar n
      · exact hacc c hmem
    · simp only [h, if_false]
      refine ih (n / 10) _ ?_
      intro c hc
      rcases List.mem_cons.mp hc with rfl | hmem
      · exact charOk_digitChar n
      · exact hacc c hmem

theorem natDigits_ok (n : Nat) (acc : List Char)
    (hacc : ∀ c ∈ acc, charOk c) : ∀ c ∈ natDigits n acc, charOk c :=
  natDigitsAux_ok (n + 1) n acc hacc

theorem decStr_ok (d : Dec) : ∀ c ∈ (decStr d).data, charOk c := by
  have hdig : ∀ c ∈ natDigits d.m.natAbs [], charOk c :=
    natDigits_ok _ _ (by intro c hc; cases hc)
  unfold decStr intStr
  by_cases he : d.e = 0
  · simp only [he, if_true]
    intro c hc
    rcases List.mem_append.mp hc with hs | hd
    · by_cases hneg : d.m < 0
      · simp only [hneg, if_true] at hs
        rcases List.mem_singleton.mp hs with rfl
        decide
      · simp only [hneg, if_false] at hs
        cases hs
    · exact hdig c hd
  · simp only [he, if_false]
    intro c hc
    set ds0 := natDigits d.m.natAbs [] with hds0
    set ds := List.replicate (d.e + 1 - ds0.length) '0' ++ ds0 with hds
    have hdsok : ∀ c ∈ ds, charOk c := by
      intro c hc
      rcases List.mem_append.mp hc with hrep | hmem
      · rcases List.eq_of_mem_replicate hrep with rfl; decide
      · exact hdig c hmem
    rcases List.mem_append.mp hc with hs | hrest
    · by_cases hneg : d.m < 0
      · simp only [hneg, if_true] at hs
        rcases List.mem_singleton.mp hs with rfl
        decide
      · simp only [hneg, if_false] at hs
        cases hs
    · rcases List.mem_append.mp hrest with htake | hdrop
      · exact hdsok c (List.mem_of_mem_take htake)
      · rcases List.mem_cons.mp hdrop with rfl | hdr
        · decide
        · exact hdsok c (List.mem_of_mem_drop hdr)

theorem pyLower_decStr_ne_nan (d : Dec) : pyLower (decStr d) ≠ "nan" := by
  intro h
  unfold pyLower at h
  have hdata : (decStr d).data.map Char.toLower = ['n', 'a', 'n'] :=
    congrArg String.data h
  have hfix : (decStr d).data.map Char.toLower = (decStr d).data :=
    (List.map_congr_left (fun c hc => (decStr_ok d c hc).1)).trans
      (List.map_id _)
  rw [hfix] at hdata
  have : ('n' : Char) ∈ (decStr d).data := by rw [hdata]; simp
  exact (decStr_ok d 'n' this).2.1 rfl

/-- C7: the missing-value normalizer satisfies its round-trip laws:
`denormalize(normalize(x)) == x` for every non-missing numeric value `x`;
for missing `x` (`None` or nan) `denormalize(normalize(x))` is the float
nan; `normalize(denormalize("nan")) == "nan"`; and the sentinel is
compared case-insensitively on decode. -/
theorem claim_C7_missing_value_roundtrip :
    (∀ d : Dec, denormalize_missing (normalize_missing (.num d)) = .num d) ∧
    (∀ v : PyVal, pyIsNa v = true →
      denormalize_missing (normalize_missing v) = .nan) ∧
    (normalize_missing (denormalize_missing (.str "nan")) = .str "nan") ∧
    (∀ s : String, pyLower s = "nan" → denormalize_missing (.str s) = .nan) := by
  refine ⟨?_, ?_, ?_, ?_⟩
  · intro d
    simp only [normalize_missing, denormalize_missing, pyStr]
    rw [if_neg (pyLower_decStr_ne_nan d)]
  · intro v hv
    cases v with
    | none => decide
    | nan => decide
    | num d => simp [pyIsNa] at hv
    | str s => simp [pyIsNa] at hv
  · decide
  · intro s hs
    simp only [denormalize_missing, pyStr]
    rw [if_pos hs]

/-- Witness for C7 at concrete inputs: the float `10.5`, the two missing
representations, and the upper-case sentinel `"NaN"`. -/
theorem claim_C7_missing_value_roundtrip_witness :
    denormalize_missing (normalize_missing (.num ⟨105, 1⟩)) = .num ⟨105, 1⟩ ∧
    denormalize_missing (normalize_missing .none) = .nan ∧
    denormalize_missing (normalize_missing .nan) = .nan ∧
    denormalize_missing (.str "NaN") = .nan :=
  ⟨claim_C7_missing_value_roundtrip.1 ⟨105, 1⟩,
   claim_C7_missing_value_roundtrip.2.1 .none (by decide),
   claim_C7_missing_value_roundtrip.2.1 .nan (by decide),
   claim_C7_missing_value_roundtrip.2.2.2 "NaN" (by decide)⟩

/-! ## C8 — SYMBOL direction glyphs -/

/-- C8: the SYMBOL serializer derives the direction glyph from the values:
the first point always gets `→`, and each later point gets `↑` when
strictly greater than the preceding value, `↓` when strictly less, `→`
when equal; on the four-point example the emitted directions are
`→ ↑ ↓ →` in order. -/
theorem claim_C8_symbol_directions :
    (∀ v : PyVal, pyDirection .none v = .ok "→") ∧
    (∀ a b : Dec, pyDirection (.some (.num a)) (.num b) =
      .ok (if Dec.lt a b then "↑" else if Dec.lt b a then "↓" else "→")) ∧
    to_symbol (.pairs [("d1", .num ⟨10, 0⟩), ("d2", .num ⟨20, 0⟩),
        ("d3", .num ⟨15, 0⟩), ("d4", .num ⟨15, 0⟩)]) =
      .ok ("Date,Value,DirectionIndicator\n" ++
        "d1,10,→\nd2,20,↑\nd3,15,↓\nd4,15,→") := by
  refine ⟨fun v => rfl, ?_, by rfl⟩
  intro a b
  simp only [pyDirection, pyGt, pyLt]
  by_cases h1 : Dec.lt a b
  · simp [h1]
  · by_cases h2 : Dec.lt b a <;> simp [h1, h2]

/-! ## C9 — textual (character-spaced) value encoding -/

theorem pyJoin_space_chars (l : List Char) :
    (pyJoin " " (l.map Char.toString)).data = l.intersperse ' ' := by
  match l with
  | [] => rfl
  | [c] => rfl
  | c :: c' :: rest =>
    show (Char.toString c ++ " " ++ pyJoin " " ((c' :: rest).map Char.toString)).data = _
    rw [List.intersperse_cons_cons]
    simp only [String.data_append]
    rw [pyJoin_space_chars (c' :: rest)]
    rfl

/-- C9: the textual value encoding renders each value as its decimal
string with a single space inserted between every character (after
sentinel substitution): the encoded character list is exactly the
`intersperse` of the plain rendering; `100` encodes as `"1 0 0"`, and
`10.123` renders in a CSV row as `1 0 . 1 2 3`. -/
theorem claim_C9_textual_encoding :
    (∀ v : PyVal, textualVal v =
      .str (String.mk ((pyStr (normalize_missing v)).data.intersperse ' '))) ∧
    encode_textual (.values [.num ⟨100, 0⟩]) = .values [.str "1 0 0"] ∧
    format (.pairs [("2025-01-01", .num ⟨10123, 3⟩)]) .CSV .TEXTUAL =
      .ok "Date,Value\n2025-01-01,1 0 . 1 2 3" := by
  refine ⟨?_, by rfl, by rfl⟩
  intro v
  unfold textualVal strChars
  rw [show pyJoin " " ((pyStr (normalize_missing v)).data.map Char.toString) =
    String.mk ((pyStr (normalize_missing v)).data.intersperse ' ') from ?_]
  apply String.ext
  exact pyJoin_space_chars _

/-! ## C1 — the round-trip law fails: the decoders drop the timestamps -/

/-- C1 (failing-input evaluation): the CSV serializer/deserializer pair is
invertible — `from_csv(to_csv(pairs))` recovers the `(date, value)` pairs
exactly — but the `parse` facade then applies `decode_numeric`, which keeps
only the value slot of each pair, so `parse(format(series, CSV, NUMERIC),
CSV, NUMERIC)` returns the bare float list `[10.0, 20.0]` instead of the
original series, contradicting the spec's round-trip law and `parse`'s own
docstring (which promises `[('2025-01-01', 100), ('2025-01-02', 200)]`). -/
theorem claim_C1_roundtrip_drops_timestamps :
    format (.pairs [("2025-01-01", .num ⟨10, 0⟩), ("2025-01-02", .num ⟨20, 0⟩)])
        .CSV .NUMERIC =
      .ok "Date,Value\n2025-01-01,10\n2025-01-02,20" ∧
    PARSERS .CSV "Date,Value\n2025-01-01,10\n2025-01-02,20" =
      .ok (.pairs [("2025-01-01", .num ⟨10, 0⟩), ("2025-01-02", .num ⟨20, 0⟩)]) ∧
    parse "Date,Value\n2025-01-01,10\n2025-01-02,20" .CSV .NUMERIC =
      .ok [Option.some 10, Option.some 20] :=
  ⟨rfl, rfl, rfl⟩

/-! ## C2 — fallback to ARRAY/NUMERIC on any primary-path failure -/

/-- C2: whenever the primary parse path fails, `parse` returns exactly the
result of the ARRAY/NUMERIC fallback (whose own failure propagates);
in particular `parse("[1, 2, 3]", CSV, NUMERIC)` succeeds via the fallback
with the float list `[1.0, 2.0, 3.0]` and no timestamps, while a fallback
failure such as `parse("[a, b]", CSV, NUMERIC)` surfaces the float
conversion error uncaught. -/
theorem claim_C2_parse_fallback :
    (∀ (s : String) (fmt : TSFormat) (typ : TSType) (e : String),
      primaryParse s fmt typ = .error e →
      parse s fmt typ =
        match PARSERS .ARRAY s with
        | .error e' => .error e'
        | .ok payload => DECODERS .NUMERIC payload) ∧
    primaryParse "[1, 2, 3]" .CSV .NUMERIC = .error "KeyError: Date" ∧
    parse "[1, 2, 3]" .CSV .NUMERIC =
      .ok [Option.some 1, Option.some 2, Option.some 3] ∧
    parse "[a, b]" .CSV .NUMERIC =
      .error "ValueError: could not convert string to float: a" := by
  refine ⟨?_, rfl, rfl, rfl⟩
  intro s fmt typ e h
  unfold parse
  rw [h]

/-- Witness for C2's fallback law at the concrete garbage input
`"[1, 2, 3]"` (the primary-path failure hypothesis discharged by
evaluation). -/
theorem claim_C2_parse_fallback_witness :
    parse "[1, 2, 3]" .CSV .NUMERIC =
      match PARSERS .ARRAY "[1, 2, 3]" with
      | .error e' => .error e'
      | .ok payload => DECODERS .NUMERIC payload :=
  claim_C2_parse_fallback.1 "[1, 2, 3]" .CSV .NUMERIC "KeyError: Date" (by rfl)

/-! ## C3 — sampler window shapes -/

theorem pyIdx_natCast (n a : Nat) : pyIdx n (a : Int) = min a n := by
  have h : ¬ ((a : Int) < 0) := Int.not_lt.mpr (Int.natCast_nonneg a)
  simp [pyIdx, h]

theorem slice_window {α : Type} (xs : List α) (s w : Nat)
    (h : s + w ≤ xs.length) :
    pySlice xs (s : Int) ((s + w : Nat) : Int) = (xs.drop s).take w := by
  unfold pySlice
  rw [pyIdx_natCast, pyIdx_natCast,
    min_eq_left h, min_eq_left (by omega : s ≤ xs.length)]
  have hdt := List.drop_take (s + w) s xs
  simpa using hdt

/-- Both windows of a contiguous slice pair starting at `s` are
well formed when the series holds `s + 2*w` points. -/
theorem wfPair_make {α : Type} (data : List α) (w s : Nat)
    (h : s + 2 * w ≤ data.length) :
    wfPair data w
      (pySlice data (s : Int) ((s + w : Nat) : Int),
       pySlice data ((s + w : Nat) : Int) ((s + w + w : Nat) : Int)) := by
  refine ⟨s, h, ?_, ?_, ?_, ?_⟩
  · exact slice_window data s w (by omega)
  · exact slice_window data (s + w) w (by omega)
  · rw [slice_window data s w (by omega)]
    simp [List.length_take, List.length_drop]
    omega
  · rw [slice_window data (s + w) w (by omega)]
    simp [List.length_take, List.length_drop]
    omega

theorem frontendAux_wf {α : Type} (data : List α) (w : Nat) :
    ∀ (fuel i : Nat) (p : List α × List α),
      p ∈ frontendAux data w i fuel → wfPair data w p := by
  intro fuel
  induction fuel with
  | zero => intro i p hp; cases hp
  | succ fuel ih =>
    intro i p hp
    rw [frontendAux] at hp
    by_cases hlen : data.length < i * 2 * w + w + w
    · rw [if_pos hlen] at hp; cases hp
    · rw [if_neg hlen] at hp
      rcases List.mem_cons.mp hp with rfl | hmem
      · exact wfPair_make data w (i * 2 * w) (by omega)
      · exact ih (i + 1) p hmem

/-- C3 (amended): every emitted pair is a contiguous adjacent
history/forecast window pair of length exactly `window_size` — for
`frontend` unconditionally; for `random` over any valid draw; for
`uniform` in both the linspace and the positive-step mode; and for
`backend` only under the extra bound
`min(num_samples, len//window_size - 1) * 2 * window_size ≤ len(data)`
(without it `backend` emits truncated history windows, see the
counterexample). -/
theorem claim_C3_sampler_windows :
    (∀ (data : List String) (w n : Nat) (p : List String × List String),
      p ∈ frontend data w n → wfPair data w p) ∧
    (∀ (data : List String) (w n : Nat) (r : List (List String × List String))
      (p : List String × List String), 1 ≤ w →
      backend data w n = .ok r →
      min (n : Int) ((data.length : Int) / w - 1) * (2 * w) ≤ (data.length : Int) →
      p ∈ r → wfPair data w p) ∧
    (∀ (data : List String) (w : Nat) (starts : List Nat)
      (p : List String × List String),
      (∀ s ∈ starts, (s : Int) ≤ (data.length : Int) - 2 * w) →
      p ∈ random data w starts → wfPair data w p) ∧
    (∀ (data : List String) (w n : Nat) (p : List String × List String),
      p ∈ uniform data w n Option.none → wfPair data w p) ∧
    (∀ (data : List String) (w n st : Nat) (p : List String × List String),
      1 ≤ st → p ∈ uniform data w n (Option.some st) → wfPair data w p) := by
  refine ⟨?_, ?_, ?_, ?_, ?_⟩
  · exact fun data w n p hp => frontendAux_wf data w n 0 p hp
  · intro data w n r p hw hr hcap hp
    unfold backend at hr
    rw [if_neg (by omega : ¬ w = 0)] at hr
    rcases Except.ok.inj hr with rfl
    rcases List.mem_map.mp hp with ⟨i, hi, rfl⟩
    rcases List.mem_range.mp hi with hilt
    set N : Int := min (n : Int) ((data.length : Int) / w - 1) with hN
    have hiN : (i : Int) < N := by
      have := hilt
      omega
    have hN1 : 1 ≤ N := by omega
    have hstep : (N - i) * w * 2 ≤ N * (2 * w) := by
      have h1 : (N - i) ≤ N := by omega
      have h2 : (0 : Int) ≤ (w : Int) * 2 := by positivity
      calc (N - i) * w * 2 = (N - i) * (w * 2) := by ring
        _ ≤ N * (w * 2) := mul_le_mul_of_nonneg_right h1 h2
        _ = N * (2 * w) := by ring
    have hoff : (N - i) * w * 2 ≤ (data.length : Int) := le_trans hstep hcap
    have hlow : (2 : Int) * w ≤ (N - i) * w * 2 := by
      have h1 : (1 : Int) ≤ N - i := by omega
      have h2 : (0 : Int) ≤ (w : Int) * 2 := by positivity
      calc (2 : Int) * w = 1 * (w * 2) := by ring
        _ ≤ (N - i) * (w * 2) := mul_le_mul_of_nonneg_right h1 h2
        _ = (N - i) * w * 2 := by ring
    obtain ⟨s, hs⟩ : ∃ s : Nat,
        (data.length : Int) - (N - i) * w * 2 = (s : Int) :=
      ⟨((data.length : Int) - (N - i) * w * 2).toNat,
        (Int.toNat_of_nonneg (by omega)).symm⟩
    have hcast1 : (data.length : Int) - (N - i) * w * 2 + w = ((s + w : Nat) : Int) := by
      push_cast; omega
    have hcast2 : (data.length : Int) - (N - i) * w * 2 + w + w =
        ((s + w + w : Nat) : Int) := by
      push_cast; omega
    show wfPair data w
      (pySlice data ((data.length : Int) - (N - (i : Int)) * w * 2)
        ((data.length : Int) - (N - (i : Int)) * w * 2 + w),
       pySlice data ((data.length : Int) - (N - (i : Int)) * w * 2 + w)
        ((data.length : Int) - (N - (i : Int)) * w * 2 + w + w))
    rw [hcast2, hcast1, hs]
    refine wfPair_make data w s ?_
    have : (s : Int) + 2 * w ≤ (data.length : Int) := by omega
    exact_mod_cast this
  · intro data w starts p hstarts hp
    unfold random at hp
    by_cases hms : (data.length : Int) - 2 * w < 0
    · rw [if_pos hms] at hp; cases hp
    · rw [if_neg hms] at hp
      rcases List.mem_map.mp hp with ⟨start, hstart, rfl⟩
      refine wfPair_make data w start ?_
      have h := hstarts start hstart
      have : (start : Int) + 2 * w ≤ (data.length : Int) := by omega
      exact_mod_cast this
  · intro data w n p hp
    unfold uniform at hp
    by_cases hg : (data.length : Int) - 2 * w < 0 ∨ n = 0
    · rw [if_pos hg] at hp; cases hp
    · rw [if_neg hg] at hp
      rcases List.mem_map.mp hp with ⟨start, hstart, rfl⟩
      push_neg at hg
      have hms : 2 * w ≤ data.length := by
        have := hg.1
        omega
      have hbound : start ≤ ((data.length : Int) - 2 * w).toNat := by
        unfold linspaceStarts at hstart
        by_cases h1 : n = 1
        · rw [if_pos h1] at hstart
          rcases List.mem_singleton.mp hstart with rfl
          omega
        · rw [if_neg h1] at hstart
          rcases List.mem_map.mp hstart with ⟨i, hi, rfl⟩
          rcases List.mem_range.mp hi with hilt
          set m := ((data.length : Int) - 2 * w).toNat
          calc m * i / (n - 1) ≤ m * (n - 1) / (n - 1) :=
                Nat.div_le_div_right (Nat.mul_le_mul_left m (by omega))
            _ = m := Nat.mul_div_cancel m (by omega)
      refine wfPair_make data w start ?_
      have : (start : Int) ≤ (data.length : Int) - 2 * w := by
        have := hbound
        omega
      have h2 : (start : Int) + 2 * w ≤ (data.length : Int) := by omega
      exact_mod_cast h2
  · intro data w n st p hst hp
    unfold uniform at hp
    by_cases hg : (data.length : Int) - 2 * w < 0 ∨ n = 0
    · rw [if_pos hg] at hp; cases hp
    · rw [if_neg hg] at hp
      rcases List.mem_map.mp hp with ⟨start, hstart, rfl⟩
      push_neg at hg
      have hstart' := List.mem_of_mem_take hstart
      unfold pyRangeStep at hstart'
      rw [if_neg (by omega : ¬ st = 0)] at hstart'
      rcases List.mem_map.mp hstart' with ⟨i, hi, rfl⟩
      rcases List.mem_range.mp hi with hilt
      set m := ((data.length : Int) - 2 * w).toNat with hm
      have hdm : ((m + 1) + st - 1) / st * st ≤ (m + 1) + st - 1 :=
        Nat.div_mul_le_self _ _
      have hmul : (i + 1) * st ≤ ((m + 1) + st - 1) / st * st :=
        Nat.mul_le_mul_right st (by omega)
      have hbound : i * st ≤ m := by
        have h1 : (i + 1) * st = i * st + st := by ring
        omega
      refine wfPair_make data w (i * st) ?_
      have h2 : ((i * st : Nat) : Int) + 2 * w ≤ (data.length : Int) := by
        have : ((i * st : Nat) : Int) ≤ m := by exact_mod_cast hbound
        omega
      exact_mod_cast h2

/-- C3 counterexample: `backend` on a 3-point series with `window_size
1, num_samples 2` emits a first pair whose history window is empty —
Python's negative slice start (`data[-1:0]`) truncates it — refuting the
claim that both windows always have length exactly `window_size`. -/
theorem claim_C3_counterexample :
    backend (["a", "b", "c"] : List String) 1 2 =
      .ok [(([] : List String), ["a"]), (["b"], ["c"])] ∧
    ¬ wfPair (["a", "b", "c"] : List String) 1 (([] : List String), ["a"]) := by
  refine ⟨by rfl, ?_⟩
  rintro ⟨s, -, -, -, h, -⟩
  simp at h

/-! ## C5 — decomposition statistics edge cases -/

/-- C5 counterexample: a dataframe whose date column is named
`timestamp` (so the required `date` column is missing) is NOT failed
explicitly — `trend_seasonality` logs and returns exactly the same
"not computable" outcome `(None, None, None, nan, nan)` that the
degenerate numeric path produces (shown alongside for an STL failure on
a too-short series), refuting the claim's "fails explicitly rather than
being silently absorbed". -/
theorem claim_C5_counterexample :
    trend_seasonality ["timestamp", "value"] [1, 2, 3] Option.none Option.none
        (fun _ _ => .ok ([1], [0], [0])) = stlNone ∧
    trend_seasonality ["date", "value"] [] Option.none Option.none
        (fun _ _ => .error "ValueError: series is too short for STL") = stlNone :=
  ⟨rfl, rfl⟩

/-- C5 (amended): `trend_seasonality` is total — degenerate numeric
series (a failing STL fit for too-few points, or zero variance of
`component + resid`) yield the defined "not computable" outcome with
nan strengths rather than an exception; and a dataframe missing the
required `date` or `value` column is ALSO absorbed into that same
outcome (logged, not raised), rather than failing explicitly. -/
theorem claim_C5_trend_seasonality :
    (∀ (cols : List String) (values : List ℚ) (period : Option Nat)
      (freq : Option String) stlFit, ¬ "date" ∈ cols →
      trend_seasonality cols values period freq stlFit = stlNone) ∧
    (∀ (cols : List String) (values : List ℚ) (period : Option Nat)
      (freq : Option String) stlFit, ¬ "value" ∈ cols →
      trend_seasonality cols values period freq stlFit = stlNone) ∧
    (∀ (cols : List String) (values : List ℚ) (period : Option Nat)
      (freq : Option String) stlFit (e : String),
      stlFit values period = .error e →
      trend_seasonality cols values period freq stlFit = stlNone) ∧
    (∀ (cols : List String) (values : List ℚ) (period : Option Nat)
      (freq : Option String) stlFit (t s r : List ℚ),
      stlFit values period = .ok (t, s, r) →
      pyVar (seriesAdd (t.map pyRound4) (r.map pyRound4)) = Option.some 0 →
      (trend_seasonality cols values period freq stlFit).2.2.2.1 = Option.none) := by
  refine ⟨?_, ?_, ?_, ?_⟩
  · intro cols values period freq stlFit h
    unfold trend_seasonality
    rw [if_pos h]
  · intro cols values period freq stlFit h
    unfold trend_seasonality
    by_cases hd : "date" ∈ cols
    · rw [if_neg (by simpa using hd), if_pos h]
    · rw [if_pos hd]
  · intro cols values period freq stlFit e h
    unfold trend_seasonality
    by_cases hd : "date" ∈ cols
    · by_cases hv : "value" ∈ cols
      · rw [if_neg (by simpa using hd), if_neg (by simpa using hv), h]
      · rw [if_neg (by simpa using hd), if_pos hv]
    · rw [if_pos hd]
  · intro cols values period freq stlFit t s r hstl hvar
    unfold trend_seasonality
    by_cases hd : "date" ∈ cols
    · by_cases hv : "value" ∈ cols
      · rw [if_neg (by simpa using hd), if_neg (by simpa using hv), hstl]
        simp only [hvar]
        cases pyVar (List.map pyRound4 r) with
        | none => rfl
        | some vr => simp
      · rw [if_neg (by simpa using hd), if_pos hv]
        rfl
    · rw [if_pos hd]
      rfl

/-- Witness for C5 at concrete inputs: a missing `date` column, a
missing `value` column, a failing STL fit, and a zero-variance
decomposition, each hypothesis discharged by evaluation. -/
theorem claim_C5_trend_seasonality_witness :
    trend_seasonality ["timestamp", "value"] [1, 2] Option.none Option.none
        (fun _ _ => .ok ([1], [0], [0])) = stlNone ∧
    trend_seasonality ["date", "val"] [1, 2] Option.none Option.none
        (fun _ _ => .ok ([1], [0], [0])) = stlNone ∧
    trend_seasonality ["date", "value"] [] Option.none Option.none
        (fun _ _ => .error "ValueError: series is too short for STL") = stlNone ∧
    (trend_seasonality ["date", "value"] [5, 5] Option.none Option.none
        (fun _ _ => .ok ([5, 5], [0, 0], [0, 0]))).2.2.2.1 = Option.none :=
  ⟨claim_C5_trend_seasonality.1 ["timestamp", "value"] [1, 2] Option.none
     Option.none _ (by decide),
   claim_C5_trend_seasonality.2.1 ["date", "val"] [1, 2] Option.none
     Option.none _ (by decide),
   claim_C5_trend_seasonality.2.2.1 ["date", "value"] [] Option.none
     Option.none _ "ValueError: series is too short for STL" (by rfl),
   claim_C5_trend_seasonality.2.2.2 ["date", "value"] [5, 5] Option.none
     Option.none _ [5, 5] [0, 0] [0, 0] (by rfl) (by rfl)⟩

/-! ## C6 — standardisation with caller-supplied column names -/

/-- C6 (failing-input evaluation): `select_columns` renames the caller's
columns to `date`/`value` and only then deduplicates by the ORIGINAL
`date_col` name, so the source's own docstring example —
`select_columns(df, date_col="col1", value_col="col2")` with the default
`duplicates="first"` — raises `KeyError: col1` instead of returning the
standardized frame.  With columns already named `date`/`value` the
promised behaviour holds: duplicates resolved (keep-first shown, and the
sum policy adding `10 + 20`), rows sorted ascending by date. -/
theorem claim_C6_select_columns_keyerror :
    select_columns
      [("col1", [.str "2025-01-03", .str "2025-01-01", .str "2025-01-02"]),
       ("col2", [.num ⟨30, 0⟩, .num ⟨10, 0⟩, .num ⟨20, 0⟩]),
       ("col3", [.str "a", .str "b", .str "c"])]
      "col1" "col2" (Option.some "first") = .error "KeyError: col1" ∧
    select_columns
      [("date", [.str "2025-01-02", .str "2025-01-01", .str "2025-01-01"]),
       ("value", [.num ⟨30, 0⟩, .num ⟨10, 0⟩, .num ⟨20, 0⟩])]
      "date" "value" (Option.some "first") =
      .ok [(.str "2025-01-01", .num ⟨10, 0⟩),
           (.str "2025-01-02", .num ⟨30, 0⟩)] ∧
    select_columns
      [("date", [.str "2025-01-02", .str "2025-01-01", .str "2025-01-01"]),
       ("value", [.num ⟨30, 0⟩, .num ⟨10, 0⟩, .num ⟨20, 0⟩])]
      "date" "value" (Option.some "sum") =
      .ok [(.str "2025-01-01", .num ⟨30, 0⟩),
           (.str "2025-01-02", .num ⟨30, 0⟩)] :=
  ⟨rfl, rfl, rfl⟩

/-! ## Helper lemmas for the prompt-assembly claims -/

theorem format_pairs_ok (xs : List (String × PyVal)) (fmt : TSFormat)
    (typ : TSType) (h : fmt ≠ .SYMBOL) :
    ∃ out, format (.pairs xs) fmt typ = .ok out := by
  cases typ <;> cases fmt <;> first
    | exact ⟨_, rfl⟩
    | exact absurd rfl h

theorem exampleBlocks_ok (fmt : TSFormat) (typ : TSType) (h : fmt ≠ .SYMBOL)
    (samples : List (List (String × PyVal) × List (String × PyVal))) :
    ∀ i : Nat, ∃ bs, exampleBlocks fmt typ i samples = .ok bs := by
  induction samples with
  | nil => intro i; exact ⟨[], rfl⟩
  | cons p rest ih =>
    intro i
    obtain ⟨hst, fct⟩ := p
    obtain ⟨o1, h1⟩ := format_pairs_ok hst fmt typ h
    obtain ⟨o2, h2⟩ := format_pairs_ok fct fmt typ h
    obtain ⟨bs, hbs⟩ := ih (i + 1)
    exact ⟨_, by rw [exampleBlocks, h1, h2, hbs]⟩

theorem head_ne {a b : String} {ca cb : Char}
    (h1 : a.data.head? = Option.some ca) (h2 : b.data.head? = Option.some cb)
    (hne : ca ≠ cb) : a ≠ b := by
  intro h
  subst h
  rw [h1] at h2
  exact hne (Option.some.inj h2)

theorem keyMsg_ne_sizingMsg (k : String) (m : Nat) :
    keyMsg k ≠ sizingMsg m :=
  head_ne (a := keyMsg k) (b := sizingMsg m) rfl rfl (by decide)

theorem zd_ne_sizingMsg (m : Nat) :
    "ZeroDivisionError: integer division or modulo by zero" ≠ sizingMsg m :=
  head_ne rfl rfl (by decide)

theorem renderTemplate_ne_sizing (pt : PromptType) (tmpl : Option (List TmplPiece))
    (vars : List (String × String)) (m : Nat) :
    renderTemplate pt tmpl vars ≠ .error (sizingMsg m) := by
  unfold renderTemplate
  cases hpf : pyFormat vars
      (match pt with
       | .ZERO_SHOT => ZERO_SHOT
       | .FEW_SHOT => FEW_SHOT
       | .COT_FEW => COT_FEW
       | .COT => COT
       | .CUSTOM => match tmpl with | Option.some t => t | Option.none => []) with
  | ok s => simp [hpf]
  | error k =>
    simp only [hpf]
    intro h
    exact keyMsg_ne_sizingMsg k m (Except.error.inj h)

theorem generate_sizing (train : List (String × PyVal)) (periods : Nat)
    (pt : PromptType) (fmt : TSFormat) (typ : TSType)
    (sampling : Option Sampling) (n_ex : Nat) (tmpl : Option (List TmplPiece))
    (kwargs : List (String × String)) (stats : StatsVars) (rng : List Nat)
    (hc : ¬ (pt = PromptType.CUSTOM ∧ tmpl = Option.none))
    (hf : fmt ≠ TSFormat.SYMBOL)
    (hlen : train.length < periods * 2 * n_ex) :
    generate train periods pt fmt typ sampling n_ex tmpl kwargs stats rng =
      .error (sizingMsg (periods * 2 * n_ex)) := by
  obtain ⟨s1, h1⟩ := format_pairs_ok train fmt typ hf
  obtain ⟨s2, h2⟩ := format_pairs_ok (train.take 4) fmt typ hf
  obtain ⟨s3, h3⟩ := format_pairs_ok (train.take periods) fmt typ hf
  unfold generate
  rw [if_neg hc]
  simp only [h1, h2, h3]
  rw [if_pos hlen]

theorem afterSample_ne_sizing (pt : PromptType) (tmpl : Option (List TmplPiece))
    (fmt : TSFormat) (typ : TSType) (hf : fmt ≠ .SYMBOL)
    (vars : List (String × String))
    (samples : List (List (String × PyVal) × List (String × PyVal))) (m : Nat) :
    (match exampleBlocks fmt typ 1 samples with
     | .error e => Except.error e
     | .ok blocks =>
         renderTemplate pt tmpl (("examples", pyJoin "\n" blocks) :: vars)) ≠
      Except.error (sizingMsg m) := by
  obtain ⟨bs, hbs⟩ := exampleBlocks_ok fmt typ hf samples 1
  rw [hbs]
  exact renderTemplate_ne_sizing _ _ _ _

theorem generate_not_sizing (train : List (String × PyVal)) (periods : Nat)
    (pt : PromptType) (fmt : TSFormat) (typ : TSType)
    (sampling : Option Sampling) (n_ex : Nat) (tmpl : Option (List TmplPiece))
    (kwargs : List (String × String)) (stats : StatsVars) (rng : List Nat)
    (hc : ¬ (pt = PromptType.CUSTOM ∧ tmpl = Option.none))
    (hf : fmt ≠ TSFormat.SYMBOL)
    (hlen : periods * 2 * n_ex ≤ train.length)
    (hb : sampling = Option.some Sampling.BACKEND → 1 ≤ periods) :
    generate train periods pt fmt typ sampling n_ex tmpl kwargs stats rng ≠
      .error (sizingMsg (periods * 2 * n_ex)) := by
  obtain ⟨s1, h1⟩ := format_pairs_ok train fmt typ hf
  obtain ⟨s2, h2⟩ := format_pairs_ok (train.take 4) fmt typ hf
  obtain ⟨s3, h3⟩ := format_pairs_ok (train.take periods) fmt typ hf
  unfold generate
  rw [if_neg hc]
  simp only [h1, h2, h3]
  rw [if_neg (Nat.not_lt.mpr hlen)]
  cases sampling with
  | none => exact renderTemplate_ne_sizing _ _ _ _
  | some strat =>
    cases strat with
    | FRONTEND => exact afterSample_ne_sizing pt tmpl fmt typ hf _ _ _
    | BACKEND =>
      have hp : ¬ periods = 0 := by
        have := hb rfl; omega
      simp only [sampleDispatch, backend]
      rw [if_neg hp]
      exact afterSample_ne_sizing pt tmpl fmt typ hf _ _ _
    | RANDOM => exact afterSample_ne_sizing pt tmpl fmt typ hf _ _ _
    | UNIFORM => exact afterSample_ne_sizing pt tmpl fmt typ hf _ _ _

theorem frontendAux_length {α : Type} (data : List α) (w : Nat) :
    ∀ (fuel i : Nat), (i + fuel) * (2 * w) ≤ data.length →
      (frontendAux data w i fuel).length = fuel := by
  intro fuel
  induction fuel with
  | zero => intro i h; rfl
  | succ fuel ih =>
    intro i h
    rw [frontendAux]
    have hcond : ¬ (data.length < i * 2 * w + w + w) := by
      have h1 : (i + 1) * (2 * w) ≤ data.length :=
        le_trans (Nat.mul_le_mul_right _ (by omega)) h
      have h2 : i * 2 * w + w + w = (i + 1) * (2 * w) := by ring
      omega
    rw [if_neg hcond]
    simp only [List.length_cons]
    rw [ih (i + 1) (by rw [show i + 1 + fuel = i + (fuel + 1) from by omega]; exact h)]

theorem frontend_length {α : Type} (data : List α) (w n : Nat)
    (h : n * (2 * w) ≤ data.length) : (frontend data w n).length = n :=
  frontendAux_length data w n 0 (by simpa using h)

theorem backend_ok_length {α : Type} (data : List α) (w n : Nat)
    (hw : 1 ≤ w) (hn : 1 ≤ n) (hlen : n * (2 * w) ≤ data.length) :
    ∃ r, backend data w n = .ok r ∧ r.length = n := by
  unfold backend
  rw [if_neg (by omega : ¬ w = 0)]
  refine ⟨_, rfl, ?_⟩
  simp only [List.length_map, List.length_range]
  have hq : n + 1 ≤ data.length / w := by
    have hdd : n * (2 * w) / w ≤ data.length / w := Nat.div_le_div_right hlen
    have hc : n * (2 * w) / w = n * 2 := by
      rw [show n * (2 * w) = (n * 2) * w from by ring]
      exact Nat.mul_div_cancel _ (by omega)
    omega
  have hmin : min ((n : Int)) ((data.length : Int) / (w : Int) - 1) = (n : Int) := by
    rw [min_eq_left]
    rw [show (data.length : Int) / (w : Int) = ((data.length / w : Nat) : Int) from
      (Int.ofNat_div _ _).symm]
    omega
  rw [hmin]
  exact Int.toNat_natCast n

theorem random_length {α : Type} (data : List α) (w : Nat) (starts : List Nat)
    (h : 2 * w ≤ data.length) :
    (random data w starts).length = starts.length := by
  unfold random
  rw [if_neg (by omega : ¬ ((data.length : Int) - 2 * w < 0))]
  simp

theorem random_draw_size (len w n : Nat) (hw : 1 ≤ w) (hn : 1 ≤ n)
    (hlen : n * (2 * w) ≤ len) :
    min ((n : Int)) (((len : Int) - 2 * w) + 1) = (n : Int) := by
  rw [min_eq_left]
  have hc : (n : Int) * (2 * w) ≤ (len : Int) := by exact_mod_cast hlen
  have hp : (0 : Int) ≤ (2 * (w : Int) - 1) * ((n : Int) - 1) := by
    apply mul_nonneg <;> [skip; skip] <;> push_cast <;> omega
  nlinarith

theorem uniform_length {α : Type} (data : List α) (w n : Nat)
    (hn : 1 ≤ n) (h : 2 * w ≤ data.length) :
    (uniform data w n Option.none).length = n := by
  unfold uniform
  rw [if_neg (by push_neg; exact ⟨by omega, by omega⟩)]
  by_cases h1 : n = 1
  · subst h1; simp [linspaceStarts]
  · simp [linspaceStarts, h1]

/-! ## C4 — the sizing precondition of `generate` -/

/-- C4: for any prompt type (CUSTOM with its template supplied), any
non-SYMBOL format, any value type and any sampling argument, `generate`
raises the descriptive sizing error exactly when the training series is
shorter than `num_examples * window_size * 2` (where the sampler's
window size is `periods`); when the series is long enough the sizing
error cannot occur; and the samplers never silently truncate: under the
sizing bound every strategy yields exactly `num_examples` pairs
(frontend and backend and the uniform linspace mode produce that many,
and the random draw size `min(num_samples, max_start+1)` equals
`num_samples`). -/
theorem claim_C4_sizing_precondition :
    (∀ (train : List (String × PyVal)) (periods : Nat) (pt : PromptType)
      (fmt : TSFormat) (typ : TSType) (sampling : Option Sampling)
      (n_ex : Nat) (tmpl : Option (List TmplPiece)) (kwargs : List (String × String))
      (stats : StatsVars) (rng : List Nat),
      ¬ (pt = PromptType.CUSTOM ∧ tmpl = Option.none) →
      fmt ≠ TSFormat.SYMBOL →
      train.length < periods * 2 * n_ex →
      generate train periods pt fmt typ sampling n_ex tmpl kwargs stats rng =
        .error (sizingMsg (periods * 2 * n_ex))) ∧
    (∀ (train : List (String × PyVal)) (periods : Nat) (pt : PromptType)
      (fmt : TSFormat) (typ : TSType) (sampling : Option Sampling)
      (n_ex : Nat) (tmpl : Option (List TmplPiece)) (kwargs : List (String × String))
      (stats : StatsVars) (rng : List Nat),
      ¬ (pt = PromptType.CUSTOM ∧ tmpl = Option.none) →
      fmt ≠ TSFormat.SYMBOL →
      periods * 2 * n_ex ≤ train.length →
      (sampling = Option.some Sampling.BACKEND → 1 ≤ periods) →
      generate train periods pt fmt typ sampling n_ex tmpl kwargs stats rng ≠
        .error (sizingMsg (periods * 2 * n_ex))) ∧
    (∀ (train : List (String × PyVal)) (w n : Nat),
      n * (2 * w) ≤ train.length → (frontend train w n).length = n) ∧
    (∀ (train : List (String × PyVal)) (w n : Nat),
      1 ≤ w → 1 ≤ n → n * (2 * w) ≤ train.length →
      ∃ r, backend train w n = .ok r ∧ r.length = n) ∧
    (∀ (train : List (String × PyVal)) (w n : Nat),
      1 ≤ n → 2 * w ≤ train.length →
      (uniform train w n Option.none).length = n) ∧
    (∀ (len w n : Nat), 1 ≤ w → 1 ≤ n → n * (2 * w) ≤ len →
      min ((n : Int)) (((len : Int) - 2 * w) + 1) = (n : Int)) :=
  ⟨generate_sizing, generate_not_sizing,
   fun train => frontend_length train,
   fun train => backend_ok_length train,
   fun train => uniform_length train,
   random_draw_size⟩

set_option maxRecDepth 100000 in
/-- Witness for C4 at the claim's concrete sizes: `num_examples = 3`,
`window_size = periods = 10` — a 40-point series raises the sizing
error demanding 60 periods, a 60-point series cannot raise it, and the
frontend sampler on the 60-point series yields exactly 3 pairs. -/
theorem claim_C4_sizing_precondition_witness :
    generate (mkSeries 40) 10 .FEW_SHOT .CSV .NUMERIC Option.none 3
        Option.none [] stats0 [] = .error (sizingMsg 60) ∧
    generate (mkSeries 60) 10 .COT .CSV .NUMERIC (Option.some .FRONTEND) 3
        Option.none [] stats0 [] ≠ .error (sizingMsg 60) ∧
    (frontend (mkSeries 60) 10 3).length = 3 :=
  ⟨claim_C4_sizing_precondition.1 (mkSeries 40) 10 .FEW_SHOT .CSV .NUMERIC
     Option.none 3 Option.none [] stats0 []
     (by simp) (by simp) (by decide),
   claim_C4_sizing_precondition.2.1 (mkSeries 60) 10 .COT .CSV .NUMERIC
     (Option.some .FRONTEND) 3 Option.none [] stats0 []
     (by simp) (by simp) (by decide) (by decide),
   claim_C4_sizing_precondition.2.2.1 (mkSeries 60) 10 3 (by decide)⟩

/-! ## C10 — the `examples` variable and the default sampling -/

set_option maxRecDepth 100000 in
/-- C10 counterexample: with the default `sampling=None` (and no extra
kwargs), `generate` for FEW_SHOT does NOT raise the missing-key error
for `examples`: `str.format` fails at the FIRST missing key in template
order, which is `freq` (the templates also lack `freq`/
`num_periods_train` in the base variables), so the error names `freq`. -/
theorem claim_C10_counterexample :
    generate (mkSeries 2) 1 .FEW_SHOT .CSV .NUMERIC Option.none 0
        Option.none [] stats0 [] = .error (keyMsg "freq") ∧
    keyMsg "freq" ≠ keyMsg "examples" :=
  ⟨rfl, by decide⟩

set_option maxRecDepth 100000 in
/-- C10 (amended): the `examples` variable is only populated when a
sampling strategy is given; but with the default `sampling=None` and no
extra kwargs the missing-template-key error names `freq` for FEW_SHOT
and `num_periods_train` for COT_FEW (the first missing key in template
order, both preceding `examples`), and only when the sizing
precondition passes — a shorter series with `num_examples > 0` raises
the sizing error first (see C4).  With a sampling strategy and `freq`
supplied, FEW_SHOT renders successfully. -/
theorem claim_C10_default_sampling_key_error :
    (∀ (train : List (String × PyVal)) (periods : Nat) (fmt : TSFormat)
      (typ : TSType) (n_ex : Nat) (tmpl : Option (List TmplPiece)) (stats : StatsVars)
      (rng : List Nat),
      fmt ≠ TSFormat.SYMBOL →
      periods * 2 * n_ex ≤ train.length →
      generate train periods .FEW_SHOT fmt typ Option.none n_ex tmpl []
        stats rng = .error (keyMsg "freq")) ∧
    (∀ (train : List (String × PyVal)) (periods : Nat) (fmt : TSFormat)
      (typ : TSType) (n_ex : Nat) (tmpl : Option (List TmplPiece)) (stats : StatsVars)
      (rng : List Nat),
      fmt ≠ TSFormat.SYMBOL →
      periods * 2 * n_ex ≤ train.length →
      generate train periods .COT_FEW fmt typ Option.none n_ex tmpl []
        stats rng = .error (keyMsg "num_periods_train")) ∧
    (generate (mkSeries 2) 1 .FEW_SHOT .CSV .NUMERIC
      (Option.some .FRONTEND) 1 Option.none [("freq", "dia")] stats0
      []).isOk = true := by
  refine ⟨?_, ?_, by rfl⟩
  · intro train periods fmt typ n_ex tmpl stats rng hf hlen
    obtain ⟨s1, h1⟩ := format_pairs_ok train fmt typ hf
    obtain ⟨s2, h2⟩ := format_pairs_ok (train.take 4) fmt typ hf
    obtain ⟨s3, h3⟩ := format_pairs_ok (train.take periods) fmt typ hf
    unfold generate
    rw [if_neg (by simp)]
    simp only [h1, h2, h3]
    rw [if_neg (Nat.not_lt.mpr hlen)]
    rfl
  · intro train periods fmt typ n_ex tmpl stats rng hf hlen
    obtain ⟨s1, h1⟩ := format_pairs_ok train fmt typ hf
    obtain ⟨s2, h2⟩ := format_pairs_ok (train.take 4) fmt typ hf
    obtain ⟨s3, h3⟩ := format_pairs_ok (train.take periods) fmt typ hf
    unfold generate
    rw [if_neg (by simp)]
    simp only [h1, h2, h3]
    rw [if_neg (Nat.not_lt.mpr hlen)]
    rfl

set_option maxRecDepth 100000 in
/-- Witness for C10 at concrete inputs: a 4-point series with
`periods = 1`, `num_examples = 2` (sizing satisfied) raises the
`freq` key error for FEW_SHOT and the `num_periods_train` key error
for COT_FEW under the default sampling. -/
theorem claim_C10_default_sampling_key_error_witness :
    generate (mkSeries 4) 1 .FEW_SHOT .CSV .NUMERIC Option.none 2
        Option.none [] stats0 [] = .error (keyMsg "freq") ∧
    generate (mkSeries 4) 1 .COT_FEW .CSV .NUMERIC Option.none 2
        Option.none [] stats0 [] = .error (keyMsg "num_periods_train") :=
  ⟨claim_C10_default_sampling_key_error.1 (mkSeries 4) 1 .CSV .NUMERIC 2
     Option.none stats0 [] (by simp) (by decide),
   claim_C10_default_sampling_key_error.2.1 (mkSeries 4) 1 .CSV .NUMERIC 2
     Option.none stats0 [] (by simp) (by decide)⟩

/-- Witness for C3 at concrete inputs: one pair from each strategy on
small series, every hypothesis discharged by evaluation. -/
theorem claim_C3_sampler_windows_witness :
    wfPair (["a", "b", "c", "d"] : List String) 1 (["a"], ["b"]) ∧
    wfPair (["a", "b", "c", "d", "e", "f"] : List String) 1 (["c"], ["d"]) ∧
    wfPair (["a", "b", "c", "d"] : List String) 1 (["c"], ["d"]) ∧
    wfPair (["a", "b", "c", "d"] : List String) 2 (["a", "b"], ["c", "d"]) :=
  ⟨claim_C3_sampler_windows.1 ["a", "b", "c", "d"] 1 2 (["a"], ["b"]) (by decide),
   claim_C3_sampler_windows.2.1 ["a", "b", "c", "d", "e", "f"] 1 2
     [((["c"], ["d"])), ((["e"], ["f"]))] (["c"], ["d"]) (by decide) (by rfl)
     (by decide) (by decide),
   claim_C3_sampler_windows.2.2.1 ["a", "b", "c", "d"] 1 [0, 2] (["c"], ["d"])
     (by decide) (by decide),
   claim_C3_sampler_windows.2.2.2.1 ["a", "b", "c", "d"] 2 1
     (["a", "b"], ["c", "d"]) (by decide)⟩

end LLM4Time
